import Mathlib

/-!
Verification of the PoolGame continuous-collision physics core.

This file shallowly embeds the physics logic of the repository
(`src/body.js`, `src/physics.js`, the `update_state` stepper of `pool.js`)
over the real numbers and settles the frozen claims about it.

Modelling conventions:
* JavaScript floating-point numbers are embedded as real numbers (`ℝ`);
  numeric literals such as `1E-5` and `1e-10` become the exact rationals
  `1/100000` and `1/10^10`.
* Division follows Lean's convention `x / 0 = 0`.  The JavaScript source
  produces `NaN`/`Infinity` on the same inputs; every place where a proof
  depends on a division by zero is flagged in its doc comment.
* The vector primitives (`plus`, `minus`, `times`, `dot`, `cross`, `norm`,
  `normalized`, `equals`) come from `tiny-graphics.js`, which is not under
  `src/`; they are the standard Euclidean operations, with
  `normalized v = v * (1 / |v|)`.
* JavaScript object identity (the `Map` keyed by body objects and the
  `other.body` reference in ball-ball events) is modelled by list indices.
-/

open scoped Classical

noncomputable section

/-- A 3-component vector of reals, the embedding of tiny-graphics `vec3`. -/
@[ext]
structure Vec3 where
  x : ℝ
  y : ℝ
  z : ℝ

namespace Vec3

/-- Componentwise addition (`plus`). -/
def plus (a b : Vec3) : Vec3 := ⟨a.x + b.x, a.y + b.y, a.z + b.z⟩

/-- Componentwise subtraction (`minus`). -/
def minus (a b : Vec3) : Vec3 := ⟨a.x - b.x, a.y - b.y, a.z - b.z⟩

/-- Scalar multiple (`times`). -/
def times (a : Vec3) (s : ℝ) : Vec3 := ⟨a.x * s, a.y * s, a.z * s⟩

/-- Dot product. -/
def dot (a b : Vec3) : ℝ := a.x * b.x + a.y * b.y + a.z * b.z

/-- Cross product. -/
def cross (a b : Vec3) : Vec3 :=
  ⟨a.y * b.z - a.z * b.y, a.z * b.x - a.x * b.z, a.x * b.y - a.y * b.x⟩

instance : Add Vec3 := ⟨plus⟩
instance : Sub Vec3 := ⟨minus⟩
instance : Zero Vec3 := ⟨⟨0, 0, 0⟩⟩
instance : Inhabited Vec3 := ⟨0⟩

@[simp] lemma add_x (a b : Vec3) : (a + b).x = a.x + b.x := rfl
@[simp] lemma add_y (a b : Vec3) : (a + b).y = a.y + b.y := rfl
@[simp] lemma add_z (a b : Vec3) : (a + b).z = a.z + b.z := rfl
@[simp] lemma sub_x (a b : Vec3) : (a - b).x = a.x - b.x := rfl
@[simp] lemma sub_y (a b : Vec3) : (a - b).y = a.y - b.y := rfl
@[simp] lemma sub_z (a b : Vec3) : (a - b).z = a.z - b.z := rfl
@[simp] lemma times_x (a : Vec3) (s : ℝ) : (a.times s).x = a.x * s := rfl
@[simp] lemma times_y (a : Vec3) (s : ℝ) : (a.times s).y = a.y * s := rfl
@[simp] lemma times_z (a : Vec3) (s : ℝ) : (a.times s).z = a.z * s := rfl
@[simp] lemma zero_x : (0 : Vec3).x = 0 := rfl
@[simp] lemma zero_y : (0 : Vec3).y = 0 := rfl
@[simp] lemma zero_z : (0 : Vec3).z = 0 := rfl
@[simp] lemma dot_def (a b : Vec3) :
    a.dot b = a.x * b.x + a.y * b.y + a.z * b.z := rfl
@[simp] lemma cross_x (a b : Vec3) : (a.cross b).x = a.y * b.z - a.z * b.y := rfl
@[simp] lemma cross_y (a b : Vec3) : (a.cross b).y = a.z * b.x - a.x * b.z := rfl
@[simp] lemma cross_z (a b : Vec3) : (a.cross b).z = a.x * b.y - a.y * b.x := rfl

/-- Euclidean length (`norm`). -/
def norm (v : Vec3) : ℝ := Real.sqrt (v.dot v)

/-- Unit vector in the direction of `v` (`normalized`), i.e. `v * (1/|v|)`.
For `v = 0` Lean's division convention yields the zero vector, where
JavaScript would produce a `NaN` vector. -/
def normalized (v : Vec3) : Vec3 := v.times (1 / v.norm)

lemma norm_nonneg (v : Vec3) : 0 ≤ v.norm := Real.sqrt_nonneg _

lemma dot_self_nonneg (v : Vec3) : 0 ≤ v.dot v := by
  simp only [dot_def]
  nlinarith [sq_nonneg v.x, sq_nonneg v.y, sq_nonneg v.z]

/-- For concrete evaluation: the norm of a vector whose squared length is the
square of a known nonnegative rational. -/
lemma norm_eq_of_sq (v : Vec3) (r : ℝ) (h0 : 0 ≤ r) (h : v.dot v = r ^ 2) :
    v.norm = r := by
  rw [norm, h, Real.sqrt_sq h0]

end Vec3

/-- Result of the analytic motion query: the translated fields
`{position, velocity, stop_time}` of `Body.compute_state_at`. -/
structure MotionState where
  position : Vec3
  velocity : Vec3
  stop_time : Option ℝ

/-- The `previous` snapshot of a body: `{center, rotation, linear_velocity}`.
Modelled from the spec: `Mat4` rotation matrices live in `tiny-graphics.js`
(not under `src/`); since the spin axis is fixed and rotations about a fixed
axis compose by angle addition, `rotation` is represented by the accumulated
angle. -/
@[ext]
structure Snapshot where
  center : Vec3
  rotation : ℝ
  linear_velocity : Vec3

/-- The mutable state of a `Body` that the physics core reads and writes:
`center`, `linear_velocity`, `rolling_friction`, `size` (the ellipsoid radii,
of which the collision code takes the maximum), the cosmetic spin state and
the `previous` snapshot. -/
@[ext]
structure Body where
  center : Vec3
  linear_velocity : Vec3
  rolling_friction : ℝ
  size : Vec3
  angular_velocity : ℝ
  rotation : ℝ
  previous : Snapshot

instance : Inhabited Body :=
  ⟨⟨0, 0, 0, 0, 0, 0, ⟨0, 0, 0⟩⟩⟩

namespace Body

/-- The bounding-sphere radius `Math.max(size[0], size[1], size[2])`. -/
def radius (b : Body) : ℝ := max b.size.x (max b.size.y b.size.z)

/-- Embedding of `Body.compute_state_at` (src/body.js:353-378): the analytic
state after coasting for `time_amount` under constant deceleration.  The
position formula is transcribed literally from the source, including the
missing `1/2` factor on the `-rolling_friction * t * t` term (the source
comment reads `p = p0 + v0*t + 0.5*at^2` but the code multiplies the
normalized velocity by `-rolling_friction * t * t`). -/
def compute_state_at (b : Body) (t : ℝ) : MotionState :=
  if b.linear_velocity.norm > 1 / 10 ^ 10 then
    if b.rolling_friction * t ≥ b.linear_velocity.norm then
      let stop_time := b.linear_velocity.norm / b.rolling_friction
      { position := b.center + b.linear_velocity.times stop_time +
          b.linear_velocity.normalized.times (-b.rolling_friction * stop_time * stop_time)
        velocity := 0
        stop_time := some stop_time }
    else
      { position := b.center + b.linear_velocity.times t +
          b.linear_velocity.normalized.times (-b.rolling_friction * t * t)
        velocity := b.linear_velocity -
          b.linear_velocity.normalized.times (b.rolling_friction * t)
        stop_time := none }
  else
    { position := b.center, velocity := b.linear_velocity, stop_time := none }

/-- Embedding of `Body.set_previous` (src/body.js:380-382). -/
def set_previous (b : Body) : Body :=
  { b with previous := ⟨b.center, b.rotation, b.linear_velocity⟩ }

/-- Embedding of `Body.advance` (src/body.js:384-397): commit the analytic
state and integrate the cosmetic spin. -/
def advance (b : Body) (time_amount : ℝ) (set_prev : Bool) : Body :=
  let b1 := if set_prev then b.set_previous else b
  let new_state := b1.compute_state_at time_amount
  { b1 with
    center := new_state.position
    linear_velocity := new_state.velocity
    rotation := b1.rotation + time_amount * b1.angular_velocity }

end Body

/-- The concrete body of claim C1's failing input: at the origin, moving with
unit speed along the x-axis, with rolling friction 1. -/
def bodyC1 : Body :=
  { center := 0
    linear_velocity := ⟨1, 0, 0⟩
    rolling_friction := 1
    size := ⟨1, 1, 1⟩
    angular_velocity := 0
    rotation := 0
    previous := ⟨0, 0, 0⟩ }

/-- C1: for a body with deceleration 1 and speed 1 queried at `t = 1`
(which satisfies `deceleration * t ≥ s0`), `compute_state_at` does report
velocity zero and `stop_time = s0 / deceleration = 1`, but the returned
position is the starting center `(0,0,0)` — the code's displacement
`s0·t − f·t²` vanishes at the stop time because the `1/2` factor of the
claimed closed form `center + direction · (1/2 · s0 · stop_time)` is missing,
so the position is not the claimed `(1/2, 0, 0)`. -/
theorem C1_compute_state_at_stop_missing_half :
    (bodyC1.compute_state_at 1).velocity = 0 ∧
    (bodyC1.compute_state_at 1).stop_time = some 1 ∧
    (bodyC1.compute_state_at 1).position = bodyC1.center ∧
    (bodyC1.compute_state_at 1).position ≠
      bodyC1.center +
        bodyC1.linear_velocity.normalized.times (1 / 2 * 1 * 1) := by
  have hnorm : (⟨1, 0, 0⟩ : Vec3).norm = 1 := by
    apply Vec3.norm_eq_of_sq _ 1 (by norm_num)
    simp
  have hnorm' : (bodyC1.linear_velocity).norm = 1 := hnorm
  have h1 : (bodyC1.linear_velocity).norm > 1 / 10 ^ 10 := by
    rw [hnorm']; norm_num
  have h2 : bodyC1.rolling_friction * 1 ≥ (bodyC1.linear_velocity).norm := by
    rw [hnorm']; norm_num [bodyC1]
  have hst : (bodyC1.linear_velocity).norm / bodyC1.rolling_friction = 1 := by
    rw [hnorm']; norm_num [bodyC1]
  constructor
  · simp only [Body.compute_state_at, if_pos h1, if_pos h2]
  constructor
  · simp only [Body.compute_state_at, if_pos h1, if_pos h2, hst]
  constructor
  · simp only [Body.compute_state_at, if_pos h1, if_pos h2, hst]
    ext <;>
      simp [bodyC1, Vec3.normalized, hnorm, Vec3.times]
  · simp only [Body.compute_state_at, if_pos h1, if_pos h2, hst]
    intro h
    have hx := congrArg Vec3.x h
    simp [bodyC1, Vec3.normalized, hnorm, Vec3.times] at hx

end

noncomputable section

/-- The paired half of a ball-ball collision event: the outcome for the other
body.  The JavaScript object reference `other.body` is modelled by the other
body's index `idx` in the world's body list. -/
@[ext]
structure OtherEvent where
  idx : ℕ
  dt : ℝ
  position : Vec3
  velocity : Vec3
  stop_time : Option ℝ

/-- A collision event as returned by the oracle queries: elapsed time `dt`,
resulting position/velocity, the friction stop time of the segment, and the
paired outcome for ball-ball collisions. -/
@[ext]
structure Event where
  dt : ℝ
  position : Vec3
  velocity : Vec3
  stop_time : Option ℝ
  other : Option OtherEvent

instance : Inhabited Event := ⟨⟨0, 0, 0, none, none⟩⟩

namespace Body

/-- The `{...this.compute_state_at(dt), dt}` no-collision result used by all
three oracles. -/
def noCollisionEvent (b : Body) (dt : ℝ) : Event :=
  let s := b.compute_state_at dt
  ⟨dt, s.position, s.velocity, s.stop_time, none⟩

/-- The wall's outward normal, chosen at query time to face the body's center
(src/body.js:476-477). -/
def wallNormal (b : Body) (boundary : List Vec3) : Vec3 :=
  let n0 := ((boundary.getD 1 0 - boundary.getD 0 0).cross
      (boundary.getD 2 0 - boundary.getD 1 0)).normalized
  if (b.center - boundary.getD 0 0).dot n0 < 0 then n0.times (-1) else n0

/-- The wall polygon inflated toward the body by the bounding-sphere radius
(src/body.js:478). -/
def movedPolygon (b : Body) (boundary : List Vec3) : List Vec3 :=
  boundary.map (fun e => e + (b.wallNormal boundary).times b.radius)

/-- Signed height of the body's center over the inflated plane
(src/body.js:485). -/
def beginHeight (b : Body) (boundary : List Vec3) : ℝ :=
  (b.center - (b.movedPolygon boundary).getD 0 0).dot (b.wallNormal boundary)

/-- Negated signed height of the projected end-of-horizon position over the
inflated plane (src/body.js:486). -/
def endHeight (b : Body) (boundary : List Vec3) (dt : ℝ) : ℝ :=
  -(((b.compute_state_at dt).position - (b.movedPolygon boundary).getD 0 0).dot
      (b.wallNormal boundary))

/-- The plane-crossing point obtained by linear interpolation of the signed
heights (src/body.js:487).  When `beginHeight + endHeight = 0` the source
divides by zero (`NaN` in JavaScript, junk value `0` here). -/
def intersectionPoint (b : Body) (boundary : List Vec3) (dt : ℝ) : Vec3 :=
  b.center.times (b.endHeight boundary dt / (b.beginHeight boundary + b.endHeight boundary dt)) +
    (b.compute_state_at dt).position.times
      (b.beginHeight boundary / (b.beginHeight boundary + b.endHeight boundary dt))

/-- The in-polygon consistent-sign test fails for some edge
(src/body.js:490-494); the source then returns the no-collision event. -/
def polygonMiss (b : Body) (boundary : List Vec3) (dt : ℝ) : Prop :=
  let moved := b.movedPolygon boundary
  let ip := b.intersectionPoint boundary dt
  let sgn := ((moved.getD 0 0 - moved.getD (moved.length - 1) 0).cross
      (ip - moved.getD (moved.length - 1) 0)).dot (b.wallNormal boundary)
  ∃ i ∈ List.range (moved.length - 1),
    (((moved.getD (i + 1) 0 - moved.getD i 0).cross (ip - moved.getD i 0)).dot
        (b.wallNormal boundary)) * sgn ≤ 0

/-- The friction-adjusted speed at the impact point,
`sqrt(v·v − 2·friction·distance)` (src/body.js:496). -/
def intersectionSpeed (b : Body) (boundary : List Vec3) (dt : ℝ) : ℝ :=
  Real.sqrt (b.linear_velocity.dot b.linear_velocity -
    2 * b.rolling_friction * (b.intersectionPoint boundary dt - b.center).norm)

/-- Embedding of `Body.boundary_collision` (src/body.js:474-504). -/
def boundary_collision (b : Body) (boundary : List Vec3) (dt : ℝ) : Event :=
  if b.linear_velocity.dot (b.wallNormal boundary) > 0 then
    b.noCollisionEvent dt
  else if ((b.compute_state_at dt).position - (b.movedPolygon boundary).getD 0 0).dot
      (b.wallNormal boundary) > 0 then
    b.noCollisionEvent dt
  else if b.polygonMiss boundary dt then
    b.noCollisionEvent dt
  else
    { dt := (b.intersectionPoint boundary dt - b.center).norm /
        (b.linear_velocity.norm + b.intersectionSpeed boundary dt) * 2
      position := b.intersectionPoint boundary dt
      velocity := (b.linear_velocity.normalized -
          (b.wallNormal boundary).times
            (2 * (b.linear_velocity.normalized.dot (b.wallNormal boundary)))).times
        (b.intersectionSpeed boundary dt)
      stop_time := none
      other := none }

end Body

/-- Evaluation helper: a frictionless moving body coasts linearly. -/
lemma compute_state_at_frictionless (b : Body) (t : ℝ)
    (hf : b.rolling_friction = 0) (hv : b.linear_velocity.norm > 1 / 10 ^ 10) :
    b.compute_state_at t =
      ⟨b.center + b.linear_velocity.times t, b.linear_velocity, none⟩ := by
  have hv0 : (0 : ℝ) < b.linear_velocity.norm := lt_trans (by norm_num) hv
  rw [Body.compute_state_at, if_pos hv, if_neg (by rw [hf]; simpa using not_le.mpr hv0)]
  congr 1
  · ext <;> simp [hf, Vec3.normalized]
  · ext <;> simp [hf, Vec3.normalized]

/-- Evaluation helper: a body with zero velocity stays put. -/
lemma compute_state_at_static (b : Body) (t : ℝ) (hv : b.linear_velocity = 0) :
    b.compute_state_at t = ⟨b.center, 0, none⟩ := by
  have h : ¬ b.linear_velocity.norm > 1 / 10 ^ 10 := by
    rw [hv]
    have h0 : (0 : Vec3).dot 0 = 0 := by simp
    rw [Vec3.norm, h0, Real.sqrt_zero]
    norm_num
  rw [Body.compute_state_at, if_neg h, hv]

/-- C8 (amended): whenever the body's velocity has a strictly positive
component along the facing wall normal, `boundary_collision` reports no
collision and returns the end-of-horizon state with elapsed time exactly the
horizon `dt`.  (The claim as frozen says "non-negative"; the counterexample
theorem shows the zero-dot-product case misbehaves.) -/
theorem C8_boundary_collision_moving_away (b : Body) (boundary : List Vec3)
    (dt : ℝ) (h : b.linear_velocity.dot (b.wallNormal boundary) > 0) :
    b.boundary_collision boundary dt = b.noCollisionEvent dt ∧
    (b.boundary_collision boundary dt).dt = dt := by
  rw [Body.boundary_collision, if_pos h]
  exact ⟨rfl, rfl⟩

/-- The wall used by C8's witness and related concrete inputs: a vertical
quad in the plane `x = 1` spanning `y, z ∈ [0, 2]`. -/
def wallA : List Vec3 := [⟨1, 0, 0⟩, ⟨1, 0, 2⟩, ⟨1, 2, 2⟩, ⟨1, 2, 0⟩]

/-- The body of C8's witness: at `(3,1,1)`, on the far side of `wallA`,
moving away from it along `+x`. -/
def bodyC8w : Body :=
  { center := ⟨3, 1, 1⟩
    linear_velocity := ⟨1, 0, 0⟩
    rolling_friction := 0
    size := ⟨1, 1, 1⟩
    angular_velocity := 0
    rotation := 0
    previous := ⟨0, 0, 0⟩ }

lemma bodyC8w_wallNormal : bodyC8w.wallNormal wallA = ⟨1, 0, 0⟩ := by
  have hcross :
      ((wallA.getD 1 0 - wallA.getD 0 0).cross (wallA.getD 2 0 - wallA.getD 1 0)) =
        ⟨-4, 0, 0⟩ := by
    ext <;> norm_num [wallA]
  have hnorm : (⟨-4, 0, 0⟩ : Vec3).norm = 4 := by
    apply Vec3.norm_eq_of_sq _ 4 (by norm_num)
    simp
    norm_num
  rw [Body.wallNormal]
  simp only [hcross]
  rw [if_pos]
  · rw [Vec3.normalized, hnorm]
    ext <;> norm_num [Vec3.times]
  · rw [Vec3.normalized, hnorm]
    simp [bodyC8w, wallA, Vec3.times]

/-- Witness for C8: the concrete away-moving body is reported unobstructed for
the whole horizon. -/
theorem C8_witness :
    bodyC8w.linear_velocity.dot (bodyC8w.wallNormal wallA) > 0 ∧
    bodyC8w.boundary_collision wallA 1 = bodyC8w.noCollisionEvent 1 ∧
    (bodyC8w.boundary_collision wallA 1).dt = 1 := by
  have h : bodyC8w.linear_velocity.dot (bodyC8w.wallNormal wallA) > 0 := by
    rw [bodyC8w_wallNormal]
    simp [bodyC8w]
  exact ⟨h, C8_boundary_collision_moving_away bodyC8w wallA 1 h⟩

end

noncomputable section

/-- The confirmed-collision branch of `boundary_collision`, for reuse in
concrete evaluations and in the reflection claim. -/
lemma boundary_collision_confirmed (b : Body) (w : List Vec3) (dt : ℝ)
    (h1 : ¬ b.linear_velocity.dot (b.wallNormal w) > 0)
    (h2 : ¬ ((b.compute_state_at dt).position - (b.movedPolygon w).getD 0 0).dot
        (b.wallNormal w) > 0)
    (h3 : ¬ b.polygonMiss w dt) :
    b.boundary_collision w dt =
      { dt := (b.intersectionPoint w dt - b.center).norm /
          (b.linear_velocity.norm + b.intersectionSpeed w dt) * 2
        position := b.intersectionPoint w dt
        velocity := (b.linear_velocity.normalized -
            (b.wallNormal w).times
              (2 * (b.linear_velocity.normalized.dot (b.wallNormal w)))).times
          (b.intersectionSpeed w dt)
        stop_time := none
        other := none } := by
  rw [Body.boundary_collision, if_neg h1, if_neg h2, if_neg h3]

/-- The wall of C8's counterexample: a vertical quad in the plane `x = 2`
spanning `y, z ∈ [-2, 2]`. -/
def wallB : List Vec3 := [⟨2, -2, -2⟩, ⟨2, -2, 2⟩, ⟨2, 2, 2⟩, ⟨2, 2, -2⟩]

/-- The body of C8's counterexample: centre `(3/2, 0, 0)`, already past the
inflated plane `x = 1` of `wallB`, sliding parallel to the wall along `+z`. -/
def bodyC8c : Body :=
  { center := ⟨3 / 2, 0, 0⟩
    linear_velocity := ⟨0, 0, 1⟩
    rolling_friction := 0
    size := ⟨1, 1, 1⟩
    angular_velocity := 0
    rotation := 0
    previous := ⟨0, 0, 0⟩ }

lemma bodyC8c_wallNormal : bodyC8c.wallNormal wallB = ⟨-1, 0, 0⟩ := by
  have hcross :
      ((wallB.getD 1 0 - wallB.getD 0 0).cross (wallB.getD 2 0 - wallB.getD 1 0)) =
        ⟨-16, 0, 0⟩ := by
    ext <;> norm_num [wallB]
  have hnorm : (⟨-16, 0, 0⟩ : Vec3).norm = 16 := by
    apply Vec3.norm_eq_of_sq _ 16 (by norm_num)
    simp
    norm_num
  rw [Body.wallNormal]
  simp only [hcross]
  rw [if_neg]
  · rw [Vec3.normalized, hnorm]
    ext <;> norm_num [Vec3.times]
  · rw [Vec3.normalized, hnorm]
    simp [bodyC8c, wallB, Vec3.times]
    norm_num

lemma bodyC8c_norm_v : bodyC8c.linear_velocity.norm = 1 := by
  apply Vec3.norm_eq_of_sq _ 1 (by norm_num)
  simp [bodyC8c]

lemma bodyC8c_state :
    bodyC8c.compute_state_at 1 = ⟨⟨3 / 2, 0, 1⟩, ⟨0, 0, 1⟩, none⟩ := by
  rw [compute_state_at_frictionless bodyC8c 1 rfl (by rw [bodyC8c_norm_v]; norm_num)]
  congr 1
  · ext <;> simp [bodyC8c, Vec3.times]

lemma bodyC8c_radius : bodyC8c.radius = 1 := by
  simp [Body.radius, bodyC8c]

lemma bodyC8c_moved :
    bodyC8c.movedPolygon wallB =
      [⟨1, -2, -2⟩, ⟨1, -2, 2⟩, ⟨1, 2, 2⟩, ⟨1, 2, -2⟩] := by
  rw [Body.movedPolygon, bodyC8c_wallNormal, bodyC8c_radius]
  simp [wallB, Vec3.ext_iff, Vec3.times]
  norm_num

lemma bodyC8c_begin : bodyC8c.beginHeight wallB = -(1 / 2) := by
  rw [Body.beginHeight, bodyC8c_moved, bodyC8c_wallNormal]
  simp [bodyC8c]
  norm_num

lemma bodyC8c_end : bodyC8c.endHeight wallB 1 = 1 / 2 := by
  rw [Body.endHeight, bodyC8c_moved, bodyC8c_wallNormal, bodyC8c_state]
  norm_num

/-- At this input `beginHeight + endHeight = 0`: the source divides by zero
(JavaScript produces a `NaN` crossing point); under Lean's convention the
crossing point evaluates to the zero vector. -/
lemma bodyC8c_ip : bodyC8c.intersectionPoint wallB 1 = 0 := by
  rw [Body.intersectionPoint, bodyC8c_begin, bodyC8c_end, bodyC8c_state]
  have h0 : (-(1 / 2) + 1 / 2 : ℝ) = 0 := by norm_num
  rw [h0, div_zero, div_zero]
  ext <;> simp [bodyC8c, Vec3.times]

lemma bodyC8c_nomiss : ¬ bodyC8c.polygonMiss wallB 1 := by
  simp only [Body.polygonMiss, bodyC8c_moved, bodyC8c_ip, bodyC8c_wallNormal]
  rintro ⟨i, hi, hle⟩
  rw [List.mem_range] at hi
  simp only [List.length_cons, List.length_nil] at hi
  interval_cases i <;>
    norm_num [List.getD_cons_zero, List.getD_cons_succ] at hle

lemma bodyC8c_ip_dist :
    (bodyC8c.intersectionPoint wallB 1 - bodyC8c.center).norm = 3 / 2 := by
  rw [bodyC8c_ip]
  apply Vec3.norm_eq_of_sq _ (3 / 2) (by norm_num)
  simp [bodyC8c]
  norm_num

lemma bodyC8c_speed : bodyC8c.intersectionSpeed wallB 1 = 1 := by
  rw [Body.intersectionSpeed, bodyC8c_ip_dist]
  have h : (bodyC8c.linear_velocity.dot bodyC8c.linear_velocity -
      2 * bodyC8c.rolling_friction * (3 / 2) : ℝ) = 1 := by
    simp [bodyC8c]
  rw [h, Real.sqrt_one]

/-- C8 counterexample: for this body the velocity has dot product exactly `0`
with the facing wall normal (so it is non-negative, in the claim's scope), yet
`boundary_collision` does not return the end-of-horizon no-collision state: it
reports an impact with elapsed time `3/2`, larger than the horizon `1`.  The
degenerate path divides by zero; the JavaScript source produces a `NaN` event
at the same input, which is also not the end-of-horizon state. -/
theorem C8_counterexample_zero_normal_velocity :
    bodyC8c.linear_velocity.dot (bodyC8c.wallNormal wallB) = 0 ∧
    (bodyC8c.boundary_collision wallB 1).dt = 3 / 2 ∧
    bodyC8c.boundary_collision wallB 1 ≠ bodyC8c.noCollisionEvent 1 := by
  have hv0 : bodyC8c.linear_velocity.dot (bodyC8c.wallNormal wallB) = 0 := by
    rw [bodyC8c_wallNormal]
    simp [bodyC8c]
  have h1 : ¬ bodyC8c.linear_velocity.dot (bodyC8c.wallNormal wallB) > 0 := by
    rw [hv0]
    norm_num
  have h2 : ¬ ((bodyC8c.compute_state_at 1).position -
      (bodyC8c.movedPolygon wallB).getD 0 0).dot (bodyC8c.wallNormal wallB) > 0 := by
    rw [bodyC8c_state, bodyC8c_moved, bodyC8c_wallNormal]
    norm_num
  have heval := boundary_collision_confirmed bodyC8c wallB 1 h1 h2 bodyC8c_nomiss
  have hdt : (bodyC8c.boundary_collision wallB 1).dt = 3 / 2 := by
    rw [heval]
    simp only [bodyC8c_ip_dist, bodyC8c_speed, bodyC8c_norm_v]
    norm_num
  refine ⟨hv0, hdt, ?_⟩
  intro h
  have hd := congrArg Event.dt h
  rw [hdt] at hd
  have : (bodyC8c.noCollisionEvent 1).dt = 1 := rfl
  rw [this] at hd
  norm_num at hd

/-- The wall of C3's failing input: a vertical quad in the plane `x = 1`
spanning `y ∈ [0, 2]`, `z ∈ [-4, 4]`. -/
def wallC3 : List Vec3 := [⟨1, 0, -4⟩, ⟨1, 0, 4⟩, ⟨1, 2, 4⟩, ⟨1, 2, -4⟩]

/-- The body of C3's failing input: centre `(9/10, 1, 1)`, already well past
the inflated plane `x = 0` of `wallC3`, moving obliquely toward the wall. -/
def bodyC3 : Body :=
  { center := ⟨9 / 10, 1, 1⟩
    linear_velocity := ⟨3 / 5, 0, 4 / 5⟩
    rolling_friction := 0
    size := ⟨1, 1, 1⟩
    angular_velocity := 0
    rotation := 0
    previous := ⟨0, 0, 0⟩ }

lemma bodyC3_wallNormal : bodyC3.wallNormal wallC3 = ⟨-1, 0, 0⟩ := by
  have hcross :
      ((wallC3.getD 1 0 - wallC3.getD 0 0).cross (wallC3.getD 2 0 - wallC3.getD 1 0)) =
        ⟨-16, 0, 0⟩ := by
    ext <;> norm_num [wallC3]
  have hnorm : (⟨-16, 0, 0⟩ : Vec3).norm = 16 := by
    apply Vec3.norm_eq_of_sq _ 16 (by norm_num)
    simp
    norm_num
  rw [Body.wallNormal]
  simp only [hcross]
  rw [if_neg]
  · rw [Vec3.normalized, hnorm]
    ext <;> norm_num [Vec3.times]
  · rw [Vec3.normalized, hnorm]
    simp [bodyC3, wallC3, Vec3.times]
    norm_num

lemma bodyC3_norm_v : bodyC3.linear_velocity.norm = 1 := by
  apply Vec3.norm_eq_of_sq _ 1 (by norm_num)
  simp [bodyC3]
  norm_num

lemma bodyC3_state :
    bodyC3.compute_state_at 1 = ⟨⟨3 / 2, 1, 9 / 5⟩, ⟨3 / 5, 0, 4 / 5⟩, none⟩ := by
  rw [compute_state_at_frictionless bodyC3 1 rfl (by rw [bodyC3_norm_v]; norm_num)]
  congr 1
  · ext <;> simp [bodyC3, Vec3.times] <;> norm_num

lemma bodyC3_moved :
    bodyC3.movedPolygon wallC3 =
      [⟨0, 0, -4⟩, ⟨0, 0, 4⟩, ⟨0, 2, 4⟩, ⟨0, 2, -4⟩] := by
  have hr : bodyC3.radius = 1 := by simp [Body.radius, bodyC3]
  rw [Body.movedPolygon, bodyC3_wallNormal, hr]
  simp [wallC3, Vec3.ext_iff, Vec3.times]

lemma bodyC3_begin : bodyC3.beginHeight wallC3 = -(9 / 10) := by
  rw [Body.beginHeight, bodyC3_moved, bodyC3_wallNormal]
  simp [bodyC3]

lemma bodyC3_end : bodyC3.endHeight wallC3 1 = 3 / 2 := by
  rw [Body.endHeight, bodyC3_moved, bodyC3_wallNormal, bodyC3_state]
  norm_num

lemma bodyC3_ip : bodyC3.intersectionPoint wallC3 1 = ⟨0, 1, -(1 / 5)⟩ := by
  rw [Body.intersectionPoint, bodyC3_begin, bodyC3_end, bodyC3_state]
  ext <;> simp [bodyC3, Vec3.times] <;> norm_num

lemma bodyC3_nomiss : ¬ bodyC3.polygonMiss wallC3 1 := by
  simp only [Body.polygonMiss, bodyC3_moved, bodyC3_ip, bodyC3_wallNormal]
  rintro ⟨i, hi, hle⟩
  rw [List.mem_range] at hi
  simp only [List.length_cons, List.length_nil] at hi
  interval_cases i <;>
    norm_num [List.getD_cons_zero, List.getD_cons_succ] at hle

lemma bodyC3_ip_dist :
    (bodyC3.intersectionPoint wallC3 1 - bodyC3.center).norm = 3 / 2 := by
  rw [bodyC3_ip]
  apply Vec3.norm_eq_of_sq _ (3 / 2) (by norm_num)
  simp [bodyC3]
  norm_num

lemma bodyC3_speed : bodyC3.intersectionSpeed wallC3 1 = 1 := by
  rw [Body.intersectionSpeed, bodyC3_ip_dist]
  have h : (bodyC3.linear_velocity.dot bodyC3.linear_velocity -
      2 * bodyC3.rolling_friction * (3 / 2) : ℝ) = 1 := by
    simp [bodyC3]
    norm_num
  rw [h, Real.sqrt_one]

/-- C3: `boundary_collision`, queried with horizon `dt = 1` on a body that has
already penetrated past the inflated collision plane, reports an impact with
elapsed time `3/2`, strictly larger than the horizon — the linear
interpolation of signed heights extrapolates the crossing backwards and the
average-speed time formula then exceeds `dt`.  This violates the claimed
oracle contract (elapsed time never larger than the horizon), which the
stepper's `dt -= earliest` bookkeeping relies on. -/
theorem C3_boundary_collision_exceeds_horizon :
    (bodyC3.boundary_collision wallC3 1).dt = 3 / 2 ∧
    ¬ ((bodyC3.boundary_collision wallC3 1).dt ≤ 1) := by
  have h1 : ¬ bodyC3.linear_velocity.dot (bodyC3.wallNormal wallC3) > 0 := by
    rw [bodyC3_wallNormal]
    simp [bodyC3]
    norm_num
  have h2 : ¬ ((bodyC3.compute_state_at 1).position -
      (bodyC3.movedPolygon wallC3).getD 0 0).dot (bodyC3.wallNormal wallC3) > 0 := by
    rw [bodyC3_state, bodyC3_moved, bodyC3_wallNormal]
    norm_num
  have heval := boundary_collision_confirmed bodyC3 wallC3 1 h1 h2 bodyC3_nomiss
  have hdt : (bodyC3.boundary_collision wallC3 1).dt = 3 / 2 := by
    rw [heval]
    simp only [bodyC3_ip_dist, bodyC3_speed, bodyC3_norm_v]
    norm_num
  exact ⟨hdt, by rw [hdt]; norm_num⟩

end

noncomputable section

/-- C7: on a confirmed wall collision (all three rejection guards fail) with a
unit facing normal, the resulting velocity is the incoming unit direction
reflected about the facing wall normal and scaled by the friction-adjusted
impact speed: the component along the normal has its sign flipped and the
tangential component is preserved, both scaled by the same factor
`intersectionSpeed`. -/
theorem C7_wall_reflection (b : Body) (w : List Vec3) (dt : ℝ)
    (hn : (b.wallNormal w).dot (b.wallNormal w) = 1)
    (h1 : ¬ b.linear_velocity.dot (b.wallNormal w) > 0)
    (h2 : ¬ ((b.compute_state_at dt).position - (b.movedPolygon w).getD 0 0).dot
        (b.wallNormal w) > 0)
    (h3 : ¬ b.polygonMiss w dt) :
    (b.boundary_collision w dt).velocity =
      (b.linear_velocity.normalized -
        (b.wallNormal w).times
          (2 * (b.linear_velocity.normalized.dot (b.wallNormal w)))).times
        (b.intersectionSpeed w dt) ∧
    ((b.boundary_collision w dt).velocity).dot (b.wallNormal w) =
      -(b.linear_velocity.normalized.dot (b.wallNormal w)) *
        b.intersectionSpeed w dt ∧
    (b.boundary_collision w dt).velocity -
        (b.wallNormal w).times
          (((b.boundary_collision w dt).velocity).dot (b.wallNormal w)) =
      (b.linear_velocity.normalized -
        (b.wallNormal w).times (b.linear_velocity.normalized.dot (b.wallNormal w))).times
        (b.intersectionSpeed w dt) := by
  have heval := boundary_collision_confirmed b w dt h1 h2 h3
  rw [heval]
  dsimp only []
  set n := b.wallNormal w with hndef
  set u := b.linear_velocity.normalized with hudef
  set s := b.intersectionSpeed w dt with hsdef
  have hnn : n.x * n.x + n.y * n.y + n.z * n.z = 1 := by
    have := hn
    simpa [Vec3.dot_def] using this
  refine ⟨rfl, ?_, ?_⟩
  · simp only [Vec3.dot_def, Vec3.times_x, Vec3.times_y, Vec3.times_z,
      Vec3.sub_x, Vec3.sub_y, Vec3.sub_z]
    linear_combination
      (-2 * s * (u.x * n.x + u.y * n.y + u.z * n.z)) * hnn
  · ext
    · simp only [Vec3.dot_def, Vec3.times_x, Vec3.times_y, Vec3.times_z,
        Vec3.sub_x, Vec3.sub_y, Vec3.sub_z]
      linear_combination
        (2 * s * (u.x * n.x + u.y * n.y + u.z * n.z) * n.x) * hnn
    · simp only [Vec3.dot_def, Vec3.times_x, Vec3.times_y, Vec3.times_z,
        Vec3.sub_x, Vec3.sub_y, Vec3.sub_z]
      linear_combination
        (2 * s * (u.x * n.x + u.y * n.y + u.z * n.z) * n.y) * hnn
    · simp only [Vec3.dot_def, Vec3.times_x, Vec3.times_y, Vec3.times_z,
        Vec3.sub_x, Vec3.sub_y, Vec3.sub_z]
      linear_combination
        (2 * s * (u.x * n.x + u.y * n.y + u.z * n.z) * n.z) * hnn

/-- The body of C7's witness: in front of `wallA`'s inflated plane `x = 0`,
moving straight at the wall. -/
def bodyC7w : Body :=
  { center := ⟨-(1 / 2), 1, 1⟩
    linear_velocity := ⟨1, 0, 0⟩
    rolling_friction := 0
    size := ⟨1, 1, 1⟩
    angular_velocity := 0
    rotation := 0
    previous := ⟨0, 0, 0⟩ }

lemma bodyC7w_wallNormal : bodyC7w.wallNormal wallA = ⟨-1, 0, 0⟩ := by
  have hcross :
      ((wallA.getD 1 0 - wallA.getD 0 0).cross (wallA.getD 2 0 - wallA.getD 1 0)) =
        ⟨-4, 0, 0⟩ := by
    ext <;> norm_num [wallA]
  have hnorm : (⟨-4, 0, 0⟩ : Vec3).norm = 4 := by
    apply Vec3.norm_eq_of_sq _ 4 (by norm_num)
    simp
    norm_num
  rw [Body.wallNormal]
  simp only [hcross]
  rw [if_neg]
  · rw [Vec3.normalized, hnorm]
    ext <;> norm_num [Vec3.times]
  · rw [Vec3.normalized, hnorm]
    simp [bodyC7w, wallA, Vec3.times]
    norm_num

lemma bodyC7w_norm_v : bodyC7w.linear_velocity.norm = 1 := by
  apply Vec3.norm_eq_of_sq _ 1 (by norm_num)
  simp [bodyC7w]

lemma bodyC7w_state :
    bodyC7w.compute_state_at 1 = ⟨⟨1 / 2, 1, 1⟩, ⟨1, 0, 0⟩, none⟩ := by
  rw [compute_state_at_frictionless bodyC7w 1 rfl (by rw [bodyC7w_norm_v]; norm_num)]
  congr 1
  · ext <;> simp [bodyC7w, Vec3.times] <;> norm_num

lemma bodyC7w_moved :
    bodyC7w.movedPolygon wallA = [⟨0, 0, 0⟩, ⟨0, 0, 2⟩, ⟨0, 2, 2⟩, ⟨0, 2, 0⟩] := by
  have hr : bodyC7w.radius = 1 := by simp [Body.radius, bodyC7w]
  rw [Body.movedPolygon, bodyC7w_wallNormal, hr]
  simp [wallA, Vec3.ext_iff, Vec3.times]

lemma bodyC7w_begin : bodyC7w.beginHeight wallA = 1 / 2 := by
  rw [Body.beginHeight, bodyC7w_moved, bodyC7w_wallNormal]
  simp [bodyC7w]

lemma bodyC7w_end : bodyC7w.endHeight wallA 1 = 1 / 2 := by
  rw [Body.endHeight, bodyC7w_moved, bodyC7w_wallNormal, bodyC7w_state]
  norm_num

lemma bodyC7w_ip : bodyC7w.intersectionPoint wallA 1 = ⟨0, 1, 1⟩ := by
  rw [Body.intersectionPoint, bodyC7w_begin, bodyC7w_end, bodyC7w_state]
  ext <;> simp [bodyC7w, Vec3.times] <;> norm_num

lemma bodyC7w_nomiss : ¬ bodyC7w.polygonMiss wallA 1 := by
  simp only [Body.polygonMiss, bodyC7w_moved, bodyC7w_ip, bodyC7w_wallNormal]
  rintro ⟨i, hi, hle⟩
  rw [List.mem_range] at hi
  simp only [List.length_cons, List.length_nil] at hi
  interval_cases i <;>
    norm_num [List.getD_cons_zero, List.getD_cons_succ] at hle

/-- Witness for C7: the reflection law holds at a concrete confirmed head-on
wall collision. -/
theorem C7_witness :
    (bodyC7w.wallNormal wallA).dot (bodyC7w.wallNormal wallA) = 1 ∧
    ((bodyC7w.boundary_collision wallA 1).velocity).dot (bodyC7w.wallNormal wallA) =
      -(bodyC7w.linear_velocity.normalized.dot (bodyC7w.wallNormal wallA)) *
        bodyC7w.intersectionSpeed wallA 1 := by
  have hn : (bodyC7w.wallNormal wallA).dot (bodyC7w.wallNormal wallA) = 1 := by
    rw [bodyC7w_wallNormal]
    simp
  have h1 : ¬ bodyC7w.linear_velocity.dot (bodyC7w.wallNormal wallA) > 0 := by
    rw [bodyC7w_wallNormal]
    simp [bodyC7w]
  have h2 : ¬ ((bodyC7w.compute_state_at 1).position -
      (bodyC7w.movedPolygon wallA).getD 0 0).dot (bodyC7w.wallNormal wallA) > 0 := by
    rw [bodyC7w_state, bodyC7w_moved, bodyC7w_wallNormal]
    norm_num
  exact ⟨hn, (C7_wall_reflection bodyC7w wallA 1 hn h1 h2 bodyC7w_nomiss).2.1⟩

end

noncomputable section

/-- Instantaneous ball state `{position, velocity, radius}` passed to the
time-of-impact solver (src/body.js:569-570). -/
structure BallState where
  position : Vec3
  velocity : Vec3
  radius : ℝ

/-- `equation_a = deltaV.dot(deltaV)` (src/body.js:545). -/
def ballQuadA (a b : BallState) : ℝ :=
  (a.velocity - b.velocity).dot (a.velocity - b.velocity)

/-- `equation_b = 2 * deltaP.dot(deltaV)` (src/body.js:546). -/
def ballQuadB (a b : BallState) : ℝ :=
  2 * ((a.position - b.position).dot (a.velocity - b.velocity))

/-- `equation_c = deltaP.dot(deltaP) - (r + r')**2` (src/body.js:547). -/
def ballQuadC (a b : BallState) : ℝ :=
  (a.position - b.position).dot (a.position - b.position) - (a.radius + b.radius) ^ 2

/-- `equation_delta = equation_b**2 - 4*equation_a*equation_c`
(src/body.js:548). -/
def ballQuadDelta (a b : BallState) : ℝ :=
  ballQuadB a b ^ 2 - 4 * ballQuadA a b * ballQuadC a b

/-- `t_1` (src/body.js:550), the smaller quadratic root. -/
def ballRootOne (a b : BallState) : ℝ :=
  (-ballQuadB a b - Real.sqrt (ballQuadDelta a b)) / (2 * ballQuadA a b)

/-- `t_2` (src/body.js:551), the larger quadratic root. -/
def ballRootTwo (a b : BallState) : ℝ :=
  (-ballQuadB a b + Real.sqrt (ballQuadDelta a b)) / (2 * ballQuadA a b)

/-- Embedding of `Body.ball_collision_time_iter` (src/body.js:540-554): the
time-of-impact solver for `norm(p + vt - p' - v't) = r + r'`. -/
def Body.ball_collision_time_iter (a b : BallState) (dt : ℝ) : Option ℝ :=
  if ballQuadDelta a b ≤ 0 then none
  else if ballRootOne a b < 0 ∨ ballRootTwo a b < 0 ∨ ballRootOne a b > dt then none
  else some (ballRootOne a b)

/-- Embedding of `Body.ball_collision` (src/body.js:561-597).  The source
iterates `BALL_COLLISION_ITER = 1` times, so the loop is unrolled once:
`t = 0 + next_point_t` and both hypothetical states are advanced to `t` via
`compute_state_at`.  The JavaScript `other.body` reference is modelled by the
caller-supplied index `otherIdx`. -/
def Body.ball_collision (b other : Body) (otherIdx : ℕ) (dt : ℝ) : Event :=
  match Body.ball_collision_time_iter
      ⟨b.center, b.linear_velocity, b.radius⟩
      ⟨other.center, other.linear_velocity, other.radius⟩ dt with
  | none => b.noCollisionEvent dt
  | some t0 =>
    let t := 0 + t0
    let n1 := b.compute_state_at t
    let n2 := other.compute_state_at t
    if (∃ st, n1.stop_time = some st ∧ st < t) ∨
        (∃ st, n2.stop_time = some st ∧ st < t) then
      b.noCollisionEvent dt
    else
      let dP := n1.position - n2.position
      let dV := n1.velocity - n2.velocity
      let dP2 := n2.position - n1.position
      let dV2 := n2.velocity - n1.velocity
      { dt := t
        position := n1.position
        velocity := n1.velocity - dP.times (dV.dot dP / dP.dot dP)
        stop_time := none
        other := some
          { idx := otherIdx
            dt := t
            position := n2.position
            velocity := n2.velocity - dP2.times (dV2.dot dP2 / dP2.dot dP2)
            stop_time := none } }

/-- The degenerate self-query: with `deltaP = deltaV = 0` the discriminant is
`0`, the `delta <= 0` test fires, and the no-collision event is returned. -/
lemma ball_collision_self_eq (b : Body) (idx : ℕ) (dt : ℝ) :
    b.ball_collision b idx dt = b.noCollisionEvent dt := by
  have hiter : Body.ball_collision_time_iter
      ⟨b.center, b.linear_velocity, b.radius⟩
      ⟨b.center, b.linear_velocity, b.radius⟩ dt = none := by
    rw [Body.ball_collision_time_iter, if_pos]
    rw [ballQuadDelta, ballQuadA, ballQuadB]
    simp
  rw [Body.ball_collision, hiter]

/-- C10: the broad phase iterates over every live body without excluding the
queried ball, so the degenerate self-query `ball_collision b b` is reached;
it always returns the no-collision end-of-horizon event because with
`deltaP = deltaV = 0` the discriminant is `0` and the `delta <= 0` test
rejects the event before the division by the zero leading coefficient is
reached. -/
theorem C10_ball_collision_self (b : Body) (idx : ℕ) (dt : ℝ) :
    b.ball_collision b idx dt = b.noCollisionEvent dt :=
  ball_collision_self_eq b idx dt

end


noncomputable section

lemma Vec3.eq_zero_of_dot_self (v : Vec3) (h : v.dot v = 0) : v = 0 := by
  simp only [Vec3.dot_def] at h
  ext
  · show v.x = (0 : ℝ)
    nlinarith [sq_nonneg v.x, sq_nonneg v.y, sq_nonneg v.z]
  · show v.y = (0 : ℝ)
    nlinarith [sq_nonneg v.x, sq_nonneg v.y, sq_nonneg v.z]
  · show v.z = (0 : ℝ)
    nlinarith [sq_nonneg v.x, sq_nonneg v.y, sq_nonneg v.z]

lemma ballQuadA_pos_of_delta_pos (a b : BallState) (hd : 0 < ballQuadDelta a b) :
    0 < ballQuadA a b := by
  rcases lt_or_eq_of_le (Vec3.dot_self_nonneg (a.velocity - b.velocity)) with h | h
  · exact h
  · exfalso
    have hv : a.velocity - b.velocity = 0 := Vec3.eq_zero_of_dot_self _ h.symm
    have hb0 : ballQuadB a b = 0 := by
      rw [ballQuadB, hv]
      simp
    have ha0 : ballQuadA a b = 0 := by
      rw [ballQuadA, hv]
      simp
    rw [ballQuadDelta, hb0, ha0] at hd
    norm_num at hd

lemma ball_root_sum (a b : BallState) (hd : 0 < ballQuadDelta a b) :
    ballQuadA a b * (ballRootOne a b + ballRootTwo a b) = -ballQuadB a b := by
  have hA := ballQuadA_pos_of_delta_pos a b hd
  rw [ballRootOne, ballRootTwo]
  field_simp
  ring

lemma ball_root_prod (a b : BallState) (hd : 0 < ballQuadDelta a b) :
    ballQuadA a b * (ballRootOne a b * ballRootTwo a b) = ballQuadC a b := by
  have hA := ballQuadA_pos_of_delta_pos a b hd
  have hs2 : Real.sqrt (ballQuadDelta a b) ^ 2 =
      ballQuadB a b ^ 2 - 4 * ballQuadA a b * ballQuadC a b :=
    (Real.sq_sqrt hd.le).trans (by rw [ballQuadDelta])
  rw [ballRootOne, ballRootTwo]
  field_simp
  linear_combination (-(ballQuadA a b)) * hs2

lemma ball_quad_factor (a b : BallState) (hd : 0 < ballQuadDelta a b) (x : ℝ) :
    ballQuadA a b * x ^ 2 + ballQuadB a b * x + ballQuadC a b =
      ballQuadA a b * (x - ballRootOne a b) * (x - ballRootTwo a b) := by
  have h1 := ball_root_sum a b hd
  have h2 := ball_root_prod a b hd
  linear_combination x * h1 + (-1 : ℝ) * h2

lemma ball_root_one_le_two (a b : BallState) (hd : 0 < ballQuadDelta a b) :
    ballRootOne a b ≤ ballRootTwo a b := by
  have hA := ballQuadA_pos_of_delta_pos a b hd
  have h2A : 0 < 2 * ballQuadA a b := by linarith
  rw [ballRootOne, ballRootTwo]
  apply div_le_div_of_nonneg_right ?_ h2A.le
  linarith [Real.sqrt_nonneg (ballQuadDelta a b)]

/-- C5 (amended): the time-of-impact solver returns `none` exactly when the
discriminant is non-positive (tangency included) or either quadratic root is
negative or the smaller root exceeds the horizon; when it returns a time `t`,
that `t` is the smaller root `t_1`, lies in `[0, dt]`, solves the quadratic
`equation_a·t² + equation_b·t + equation_c = 0`, and is the smallest
non-negative root.  (The frozen claim promises the smallest non-negative root
whenever one exists within the horizon; the counterexample shows the solver
also rejects configurations whose smaller root is negative even though the
larger root would be a valid non-negative impact time not exceeding the
horizon.) -/
theorem C5_ball_collision_time_iter_characterization (a b : BallState) (dt : ℝ) :
    (Body.ball_collision_time_iter a b dt = none ↔
      ballQuadDelta a b ≤ 0 ∨ ballRootOne a b < 0 ∨ ballRootTwo a b < 0 ∨
        ballRootOne a b > dt) ∧
    (∀ t, Body.ball_collision_time_iter a b dt = some t →
      t = ballRootOne a b ∧ 0 ≤ t ∧ t ≤ dt ∧
      ballQuadA a b * t ^ 2 + ballQuadB a b * t + ballQuadC a b = 0 ∧
      ∀ s, 0 ≤ s →
        ballQuadA a b * s ^ 2 + ballQuadB a b * s + ballQuadC a b = 0 → t ≤ s) := by
  constructor
  · rw [Body.ball_collision_time_iter]
    split_ifs with h1 h2
    · simp only [true_iff]
      exact Or.inl h1
    · simp only [true_iff]
      rcases h2 with h | h | h
      · exact Or.inr (Or.inl h)
      · exact Or.inr (Or.inr (Or.inl h))
      · exact Or.inr (Or.inr (Or.inr h))
    · simp only [reduceCtorEq, false_iff]
      intro hr
      rcases hr with h | h | h | h
      · exact h1 h
      · exact h2 (Or.inl h)
      · exact h2 (Or.inr (Or.inl h))
      · exact h2 (Or.inr (Or.inr h))
  · intro t ht
    rw [Body.ball_collision_time_iter] at ht
    by_cases h1 : ballQuadDelta a b ≤ 0
    · rw [if_pos h1] at ht
      exact absurd ht (by simp)
    rw [if_neg h1] at ht
    by_cases h2 : ballRootOne a b < 0 ∨ ballRootTwo a b < 0 ∨ ballRootOne a b > dt
    · rw [if_pos h2] at ht
      exact absurd ht (by simp)
    rw [if_neg h2] at ht
    have htt : t = ballRootOne a b := by
      injection ht with h
      exact h.symm
    push_neg at h2
    obtain ⟨h2a, h2b, h2c⟩ := h2
    have hd : 0 < ballQuadDelta a b := not_le.mp h1
    refine ⟨htt, ?_, ?_, ?_, ?_⟩
    · rw [htt]
      exact h2a
    · rw [htt]
      exact h2c
    · rw [htt, ball_quad_factor a b hd]
      ring
    · intro s hs hroot
      have hfac := ball_quad_factor a b hd s
      rw [hroot] at hfac
      have hA := ballQuadA_pos_of_delta_pos a b hd
      have hz : (s - ballRootOne a b) * (s - ballRootTwo a b) = 0 := by
        have := hfac.symm
        rw [mul_assoc] at this
        rcases mul_eq_zero.mp this with h | h
        · exact absurd h (ne_of_gt hA)
        · exact h
      rw [htt]
      rcases mul_eq_zero.mp hz with h | h
      · linarith [sub_eq_zero.mp h]
      · have hs2 : s = ballRootTwo a b := sub_eq_zero.mp h
        have := ball_root_one_le_two a b hd
        linarith

/-- The first ball state of C5's counterexample: at `(1,0,0)` moving along
`-x`; the balls already overlap (`|Δp| = 1 < r_a + r_b = 2`). -/
def ballP : BallState := ⟨⟨1, 0, 0⟩, ⟨-1, 0, 0⟩, 1⟩

/-- The second ball state of C5's counterexample: at rest at the origin. -/
def ballQ : BallState := ⟨0, 0, 1⟩

lemma ballPQ_quadA : ballQuadA ballP ballQ = 1 := by
  simp [ballQuadA, ballP, ballQ]

lemma ballPQ_quadB : ballQuadB ballP ballQ = -2 := by
  simp [ballQuadB, ballP, ballQ]

lemma ballPQ_quadC : ballQuadC ballP ballQ = -3 := by
  simp [ballQuadC, ballP, ballQ]
  norm_num

lemma ballPQ_delta : ballQuadDelta ballP ballQ = 16 := by
  rw [ballQuadDelta, ballPQ_quadA, ballPQ_quadB, ballPQ_quadC]
  norm_num

lemma sqrt_sixteen : Real.sqrt 16 = 4 := by
  rw [show (16 : ℝ) = 4 ^ 2 by norm_num]
  exact Real.sqrt_sq (by norm_num)

lemma ballPQ_root_one : ballRootOne ballP ballQ = -1 := by
  rw [ballRootOne, ballPQ_quadA, ballPQ_quadB, ballPQ_delta, sqrt_sixteen]
  norm_num

/-- C5 counterexample: for two overlapping balls with closing velocity the
quadratic `|Δp + Δv·t| = r_a + r_b` has roots `-1` and `3`; the smallest
non-negative root `3` exists and does not exceed the horizon `10`, yet the
solver returns `none` because its guard rejects any configuration with
`t_1 < 0`. -/
theorem C5_counterexample_overlapping_balls :
    Body.ball_collision_time_iter ballP ballQ 10 = none ∧
    ballQuadA ballP ballQ * 3 ^ 2 + ballQuadB ballP ballQ * 3 +
      ballQuadC ballP ballQ = 0 ∧
    (0 : ℝ) ≤ 3 ∧ (3 : ℝ) ≤ 10 := by
  refine ⟨?_, ?_, by norm_num, by norm_num⟩
  · rw [Body.ball_collision_time_iter,
      if_neg (by rw [ballPQ_delta]; norm_num),
      if_pos (Or.inl (by rw [ballPQ_root_one]; norm_num))]
  · rw [ballPQ_quadA, ballPQ_quadB, ballPQ_quadC]
    norm_num

/-- The first ball state of C5's witness: at the origin moving along `+x`. -/
def ballR : BallState := ⟨0, ⟨1, 0, 0⟩, 1⟩

/-- The second ball state of C5's witness: at `(4,0,0)` moving along `-x`. -/
def ballS : BallState := ⟨⟨4, 0, 0⟩, ⟨-1, 0, 0⟩, 1⟩

lemma ballRS_quadA : ballQuadA ballR ballS = 4 := by
  simp [ballQuadA, ballR, ballS]
  norm_num

lemma ballRS_quadB : ballQuadB ballR ballS = -16 := by
  simp [ballQuadB, ballR, ballS]
  norm_num

lemma ballRS_quadC : ballQuadC ballR ballS = 12 := by
  simp [ballQuadC, ballR, ballS]
  norm_num

lemma ballRS_delta : ballQuadDelta ballR ballS = 64 := by
  rw [ballQuadDelta, ballRS_quadA, ballRS_quadB, ballRS_quadC]
  norm_num

lemma sqrt_sixtyfour : Real.sqrt 64 = 8 := by
  rw [show (64 : ℝ) = 8 ^ 2 by norm_num]
  exact Real.sqrt_sq (by norm_num)

lemma ballRS_root_one : ballRootOne ballR ballS = 1 := by
  rw [ballRootOne, ballRS_quadA, ballRS_quadB, ballRS_delta, sqrt_sixtyfour]
  norm_num

lemma ballRS_root_two : ballRootTwo ballR ballS = 3 := by
  rw [ballRootTwo, ballRS_quadA, ballRS_quadB, ballRS_delta, sqrt_sixtyfour]
  norm_num

lemma ballRS_iter : Body.ball_collision_time_iter ballR ballS 10 = some 1 := by
  rw [Body.ball_collision_time_iter,
    if_neg (by rw [ballRS_delta]; norm_num),
    if_neg (by
      push_neg
      refine ⟨?_, ?_, ?_⟩
      · rw [ballRS_root_one]; norm_num
      · rw [ballRS_root_two]; norm_num
      · rw [ballRS_root_one]; norm_num),
    ballRS_root_one]

/-- Witness for C5: two approaching balls whose quadratic has roots `1` and
`3`; the solver returns the smallest non-negative root `1`, which solves the
quadratic. -/
theorem C5_witness :
    Body.ball_collision_time_iter ballR ballS 10 = some 1 ∧
    ballQuadA ballR ballS * 1 ^ 2 + ballQuadB ballR ballS * 1 +
      ballQuadC ballR ballS = 0 ∧
    (0 : ℝ) ≤ 1 ∧ (1 : ℝ) ≤ 10 := by
  have h := (C5_ball_collision_time_iter_characterization ballR ballS 10).2 1 ballRS_iter
  exact ⟨ballRS_iter, h.2.2.2.1, h.2.1, h.2.2.1⟩

end

noncomputable section

/-- C6: whenever `ball_collision` confirms a collision (returns a paired
event), the vector sum of the two resulting velocities equals the vector sum
of the two balls' velocities at the impact instant `ev.dt` — the elastic
impulse is applied along the centre line with equal and opposite corrections,
so the total momentum of the equal-mass pair is conserved exactly. -/
theorem C6_ball_collision_momentum (b other : Body) (idx : ℕ) (dt : ℝ)
    (oe : OtherEvent) (hoe : (b.ball_collision other idx dt).other = some oe) :
    (b.ball_collision other idx dt).velocity + oe.velocity =
      (b.compute_state_at (b.ball_collision other idx dt).dt).velocity +
        (other.compute_state_at (b.ball_collision other idx dt).dt).velocity := by
  rcases hiter : Body.ball_collision_time_iter
      ⟨b.center, b.linear_velocity, b.radius⟩
      ⟨other.center, other.linear_velocity, other.radius⟩ dt with _ | t0
  · rw [Body.ball_collision] at hoe ⊢
    rw [hiter] at hoe ⊢
    simp [Body.noCollisionEvent] at hoe
  · rw [Body.ball_collision] at hoe ⊢
    rw [hiter] at hoe ⊢
    dsimp only [] at hoe ⊢
    by_cases hg :
        (∃ st, (b.compute_state_at (0 + t0)).stop_time = some st ∧ st < 0 + t0) ∨
        (∃ st, (other.compute_state_at (0 + t0)).stop_time = some st ∧ st < 0 + t0)
    · rw [if_pos hg] at hoe
      simp [Body.noCollisionEvent] at hoe
    · rw [if_neg hg] at hoe ⊢
      obtain rfl : oe = _ := (Option.some.inj hoe).symm
      set V1 := (b.compute_state_at (0 + t0)).velocity
      set V2 := (other.compute_state_at (0 + t0)).velocity
      set P1 := (b.compute_state_at (0 + t0)).position
      set P2 := (other.compute_state_at (0 + t0)).position
      show (V1 - (P1 - P2).times ((V1 - V2).dot (P1 - P2) / (P1 - P2).dot (P1 - P2))) +
          (V2 - (P2 - P1).times ((V2 - V1).dot (P2 - P1) / (P2 - P1).dot (P2 - P1))) =
          V1 + V2
      have h1 : (V2 - V1).dot (P2 - P1) = (V1 - V2).dot (P1 - P2) := by
        simp only [Vec3.dot_def, Vec3.sub_x, Vec3.sub_y, Vec3.sub_z]
        ring
      have h2 : (P2 - P1).dot (P2 - P1) = (P1 - P2).dot (P1 - P2) := by
        simp only [Vec3.dot_def, Vec3.sub_x, Vec3.sub_y, Vec3.sub_z]
        ring
      rw [h1, h2]
      ext
      · simp only [Vec3.add_x, Vec3.sub_x, Vec3.times_x]
        ring
      · simp only [Vec3.add_y, Vec3.sub_y, Vec3.times_y]
        ring
      · simp only [Vec3.add_z, Vec3.sub_z, Vec3.times_z]
        ring

/-- The first body of C6's witness: a unit ball at the origin moving `+x`. -/
def ballBodyA : Body :=
  { center := 0
    linear_velocity := ⟨1, 0, 0⟩
    rolling_friction := 0
    size := ⟨1, 1, 1⟩
    angular_velocity := 0
    rotation := 0
    previous := ⟨0, 0, 0⟩ }

/-- The second body of C6's witness: a unit ball at `(4,0,0)` moving `-x`. -/
def ballBodyB : Body :=
  { center := ⟨4, 0, 0⟩
    linear_velocity := ⟨-1, 0, 0⟩
    rolling_friction := 0
    size := ⟨1, 1, 1⟩
    angular_velocity := 0
    rotation := 0
    previous := ⟨0, 0, 0⟩ }

lemma ballBodyA_state : (⟨ballBodyA.center, ballBodyA.linear_velocity,
    ballBodyA.radius⟩ : BallState) = ballR := by
  have hr : ballBodyA.radius = 1 := by simp [Body.radius, ballBodyA]
  rw [hr]
  simp [ballBodyA, ballR]

lemma ballBodyB_state : (⟨ballBodyB.center, ballBodyB.linear_velocity,
    ballBodyB.radius⟩ : BallState) = ballS := by
  have hr : ballBodyB.radius = 1 := by simp [Body.radius, ballBodyB]
  rw [hr]
  simp [ballBodyB, ballS]

lemma ballBodyA_norm_v : ballBodyA.linear_velocity.norm = 1 := by
  apply Vec3.norm_eq_of_sq _ 1 (by norm_num)
  simp [ballBodyA]

lemma ballBodyB_norm_v : ballBodyB.linear_velocity.norm = 1 := by
  apply Vec3.norm_eq_of_sq _ 1 (by norm_num)
  simp [ballBodyB]

lemma ballBodyA_motion :
    ballBodyA.compute_state_at (0 + 1) = ⟨⟨1, 0, 0⟩, ⟨1, 0, 0⟩, none⟩ := by
  rw [zero_add,
    compute_state_at_frictionless ballBodyA 1 rfl (by rw [ballBodyA_norm_v]; norm_num)]
  congr 1
  · ext <;> simp [ballBodyA, Vec3.times]

lemma ballBodyB_motion :
    ballBodyB.compute_state_at (0 + 1) = ⟨⟨3, 0, 0⟩, ⟨-1, 0, 0⟩, none⟩ := by
  rw [zero_add,
    compute_state_at_frictionless ballBodyB 1 rfl (by rw [ballBodyB_norm_v]; norm_num)]
  congr 1
  · ext <;> simp [ballBodyB, Vec3.times] <;> norm_num

lemma ballAB_collision :
    ballBodyA.ball_collision ballBodyB 1 10 =
      ⟨0 + 1, ⟨1, 0, 0⟩, ⟨-1, 0, 0⟩, none,
        some ⟨1, 0 + 1, ⟨3, 0, 0⟩, ⟨1, 0, 0⟩, none⟩⟩ := by
  rw [Body.ball_collision, ballBodyA_state, ballBodyB_state, ballRS_iter]
  dsimp only []
  rw [if_neg (by rw [ballBodyA_motion, ballBodyB_motion]; simp)]
  rw [ballBodyA_motion, ballBodyB_motion]
  congr 1
  · ext <;> norm_num [Vec3.times]
  · congr 1
    ext <;> norm_num [Vec3.times]

/-- Witness for C6: the concrete head-on equal-mass collision swaps the two
velocities and the sum of the returned pair equals the sum at impact. -/
theorem C6_witness :
    (ballBodyA.ball_collision ballBodyB 1 10).other =
      some ⟨1, 0 + 1, ⟨3, 0, 0⟩, ⟨1, 0, 0⟩, none⟩ ∧
    (ballBodyA.ball_collision ballBodyB 1 10).velocity +
        (⟨1, 0 + 1, ⟨3, 0, 0⟩, ⟨1, 0, 0⟩, none⟩ : OtherEvent).velocity =
      (ballBodyA.compute_state_at (ballBodyA.ball_collision ballBodyB 1 10).dt).velocity +
        (ballBodyB.compute_state_at (ballBodyA.ball_collision ballBodyB 1 10).dt).velocity := by
  have hother : (ballBodyA.ball_collision ballBodyB 1 10).other =
      some ⟨1, 0 + 1, ⟨3, 0, 0⟩, ⟨1, 0, 0⟩, none⟩ := by
    rw [ballAB_collision]
  exact ⟨hother, C6_ball_collision_momentum ballBodyA ballBodyB 1 10 _ hother⟩

end

noncomputable section

/-- Embedding of `Body.edge_collision` (src/body.js:511-538): the
closest-approach test against a vertical corner edge; on confirmed proximity
it synthesizes a local tangent quad and delegates to `boundary_collision`.
The source's unused local `collision_point_to_closest_position` is omitted. -/
def Body.edge_collision (b : Body) (edge : List Vec3) (dt : ℝ) : Event :=
  let this_r := b.radius
  let edge_direction := (edge.getD 1 0 - edge.getD 0 0).normalized
  let edge_to_velocity := (edge_direction.cross b.linear_velocity).normalized
  let closest_distance := (b.center - edge.getD 0 0).dot edge_to_velocity
  if |closest_distance| > this_r then b.noCollisionEvent dt
  else
    let edge_collision_point := edge.getD 0 0 +
      edge_direction.times ((b.center - edge.getD 0 0).dot edge_direction)
    let unit_velocity := b.linear_velocity.normalized
    let closest_position := b.center +
      unit_velocity.times ((edge.getD 0 0 - b.center).dot unit_velocity)
    let cb_len := Real.sqrt (this_r * this_r - closest_distance * closest_distance)
    let collision_ball_center := closest_position - unit_velocity.times cb_len
    if ((b.compute_state_at dt).position - collision_ball_center).dot
        (collision_ball_center - b.center) > 0 then b.noCollisionEvent dt
    else
      let surface_normal := collision_ball_center - edge_collision_point
      let second_plane_direction := (edge_direction.cross surface_normal).normalized
      b.boundary_collision
        [edge_collision_point - edge_direction - second_plane_direction,
         edge_collision_point - edge_direction + second_plane_direction,
         edge_collision_point + edge_direction + second_plane_direction,
         edge_collision_point + edge_direction - second_plane_direction] dt

/-- The 18 wall polygons of the pool table (src/physics.js:19-40), with the
source's decimal literals embedded as exact rationals. -/
def poolWalls : List (List Vec3) :=
  [[⟨16.5, -8, -30.35⟩, ⟨16.5, -8, -2.2⟩, ⟨16.5, -2, -2.2⟩, ⟨16.5, -2, -30.35⟩],
   [⟨16.5, -8, 2.2⟩, ⟨16.5, -8, 30.35⟩, ⟨16.5, -2, 30.35⟩, ⟨16.5, -2, 2.2⟩],
   [⟨-16.5, -8, -30.35⟩, ⟨-16.5, -8, -2.2⟩, ⟨-16.5, -2, -2.2⟩, ⟨-16.5, -2, -30.35⟩],
   [⟨-16.5, -8, 2.2⟩, ⟨-16.5, -8, 30.35⟩, ⟨-16.5, -2, 30.35⟩, ⟨-16.5, -2, 2.2⟩],
   [⟨-13.9, -8, -32.9⟩, ⟨13.9, -8, -32.9⟩, ⟨13.9, -2, -32.9⟩, ⟨-13.9, -2, -32.9⟩],
   [⟨-13.9, -8, 32.9⟩, ⟨13.9, -8, 32.9⟩, ⟨13.9, -2, 32.9⟩, ⟨-13.9, -2, 32.9⟩],
   [⟨17.7, -8, -1.7⟩, ⟨16.5, -8, -2.2⟩, ⟨16.5, -2, -2.2⟩, ⟨17.7, -2, -1.7⟩],
   [⟨17.7, -8, 1.7⟩, ⟨16.5, -8, 2.2⟩, ⟨16.5, -2, 2.2⟩, ⟨17.7, -2, 1.7⟩],
   [⟨-17.7, -8, -1.7⟩, ⟨-16.5, -8, -2.2⟩, ⟨-16.5, -2, -2.2⟩, ⟨-17.7, -2, -1.7⟩],
   [⟨-17.7, -8, 1.7⟩, ⟨-16.5, -8, 2.2⟩, ⟨-16.5, -2, 2.2⟩, ⟨-17.7, -2, 1.7⟩],
   [⟨18.1, -8, -32⟩, ⟨16.5, -8, -30.35⟩, ⟨16.5, -2, -30.35⟩, ⟨18.1, -2, -32⟩],
   [⟨18.1, -8, 32⟩, ⟨16.5, -8, 30.35⟩, ⟨16.5, -2, 30.35⟩, ⟨18.1, -2, 32⟩],
   [⟨-18.1, -8, -32⟩, ⟨-16.5, -8, -30.35⟩, ⟨-16.5, -2, -30.35⟩, ⟨-18.1, -2, -32⟩],
   [⟨-18.1, -8, 32⟩, ⟨-16.5, -8, 30.35⟩, ⟨-16.5, -2, 30.35⟩, ⟨-18.1, -2, 32⟩],
   [⟨15.66, -8, -34.5⟩, ⟨13.9, -8, -32.9⟩, ⟨13.9, -2, -32.9⟩, ⟨15.66, -2, -34.5⟩],
   [⟨15.66, -8, 34.5⟩, ⟨13.9, -8, 32.9⟩, ⟨13.9, -2, 32.9⟩, ⟨15.66, -2, 34.5⟩],
   [⟨-15.66, -8, -34.5⟩, ⟨-13.9, -8, -32.9⟩, ⟨-13.9, -2, -32.9⟩, ⟨-15.66, -2, -34.5⟩],
   [⟨-15.66, -8, 34.5⟩, ⟨-13.9, -8, 32.9⟩, ⟨-13.9, -2, 32.9⟩, ⟨-15.66, -2, 34.5⟩]]

/-- The candidate edge pairs of one wall: closing pair `[last, first]`
followed by each adjacent pair (src/physics.js:57-61). -/
def wallEdgePairs (w : List Vec3) : List (List Vec3) :=
  [w.getD (w.length - 1) 0, w.getD 0 0] ::
    (List.range (w.length - 1)).map (fun i => [w.getD i 0, w.getD (i + 1) 0])

/-- JavaScript `e.sort((a,b) => a[1] - b[1])` on a two-vertex edge: swap when
the first vertex is higher. -/
def sortEdgePair (e : List Vec3) : List Vec3 :=
  match e with
  | [a, b] => if a.y > b.y then [b, a] else [a, b]
  | l => l

/-- Equality of two edges as in the source's dedup filter, which compares
the endpoint vectors with `equals`. -/
def edgeEq (a b : List Vec3) : Prop :=
  a.getD 0 0 = b.getD 0 0 ∧ a.getD 1 0 = b.getD 1 0

/-- Keep only the first occurrence of each edge, as the source's
positional-dedup filter does (src/physics.js:65-70). -/
def dedupFirst : List (List Vec3) → List (List Vec3)
  | [] => []
  | e :: rest => e :: dedupFirst (rest.filter fun e2 => !(decide (edgeEq e e2)))
termination_by l => l.length
decreasing_by
  simp_wf
  exact Nat.lt_succ_of_le (List.length_filter_le _ _)

/-- Embedding of `Physics.get_wall_vertical_edges` (src/physics.js:55-72):
collect wall sides, keep the vertical ones (same `x` and `z`, differing `y`),
sort each bottom-up, and deduplicate. -/
def get_wall_vertical_edges (walls : List (List Vec3)) : List (List Vec3) :=
  let edges0 := walls.flatMap wallEdgePairs
  let edges1 := edges0.filter (fun e =>
    decide ((e.getD 0 0).x = (e.getD 1 0).x ∧ (e.getD 0 0).y ≠ (e.getD 1 0).y ∧
      (e.getD 0 0).z = (e.getD 1 0).z))
  dedupFirst (edges1.map sortEdgePair)

/-- The derived vertical cushion edges of the table (src/physics.js:42). -/
def poolEdges : List (List Vec3) := get_wall_vertical_edges poolWalls

/-- `pocketRadius = 1.7` (src/physics.js:44). -/
def pocketRadius : ℝ := 1.7

/-- `ballCenterHeight = -5` (src/physics.js:45). -/
def ballCenterHeight : ℝ := -5

/-- The six pocket centres (src/physics.js:46-52). -/
def poolPockets : List Vec3 :=
  [⟨-18.3, ballCenterHeight, 0⟩, ⟨18.3, ballCenterHeight, 0⟩,
   ⟨-17.1, ballCenterHeight, 33.6⟩, ⟨17.1, ballCenterHeight, 33.6⟩,
   ⟨-17.1, ballCenterHeight, -33.6⟩, ⟨17.1, ballCenterHeight, -33.6⟩]

/-- The `{captured, removable}` flags returned by the pocket test. -/
structure PocketFlags where
  captured : Prop
  removable : Prop

/-- Modelled from the spec: `Body.pocket_update` is called by
`Physics.check_all_pockets` (src/physics.js:116) but its definition is not
under `src/`.  Per the spec (§4.2 "Pocket capture" and the §8 scenario): a
ball whose horizontal distance to the pocket centre is within the capture
radius is `captured` — such a ball is exempt from the clamp-to-table-height
correction even while still at rim height — and it is `removable` once its
height has fallen sufficiently far below the table height; "sufficiently
below" is an unspecified positive margin, represented by `margin`. -/
def Body.pocket_update (b : Body) (p : Vec3) (radius height margin : ℝ) :
    PocketFlags :=
  let d2 := (b.center.x - p.x) ^ 2 + (b.center.z - p.z) ^ 2
  { captured := d2 < radius ^ 2
    removable := d2 < radius ^ 2 ∧ b.center.y < height - margin }

/-- Embedding of `Physics.check_all_pockets` (src/physics.js:114-120): return
the flags of the first pocket reporting capture, else no capture. -/
def check_all_pockets (pockets : List Vec3) (radius height margin : ℝ)
    (b : Body) : PocketFlags :=
  match pockets with
  | [] => ⟨False, False⟩
  | p :: rest =>
    if (b.pocket_update p radius height margin).captured then
      b.pocket_update p radius height margin
    else check_all_pockets rest radius height margin b

/-- Embedding of the pocket filter at the end of `Pool_Scene.update_state`
(src/pool.js:388-399): removable bodies are dropped from the live set;
captured ones are kept falling; all others are clamped back to the table
plane. -/
def pocket_phase (pockets : List Vec3) (radius height margin : ℝ)
    (bodies : List Body) : List Body :=
  bodies.filterMap (fun b =>
    let re := check_all_pockets pockets radius height margin b
    if re.removable then none
    else if re.captured then some b
    else some { b with center := { b.center with y := height }
                       linear_velocity := { b.linear_velocity with y := 0 } })

/-- `if (re.dt < object_earliest.dt) object_earliest = re`
(src/physics.js:85,89,93). -/
def pickEarlier (acc re : Event) : Event := if re.dt < acc.dt then re else acc

/-- Embedding of `Physics.get_earliest_collision_info` (src/physics.js:81-96):
fold all wall, edge and ball queries, starting from the sentinel
`{dt: dt * 2}`.  The sentinel's position/velocity fields are absent in the
JavaScript object; they are junk zeros here and are never read by the stepper
when the body list is non-empty, because the ball loop includes the queried
ball itself and the self-query returns an event with `dt` equal to the
horizon. -/
def get_earliest_collision_info (walls edges : List (List Vec3))
    (bodies : List Body) (ball : Body) (dt : ℝ) : Event :=
  let e0 : Event := ⟨dt * 2, 0, 0, none, none⟩
  let e1 := walls.foldl (fun acc w => pickEarlier acc (ball.boundary_collision w dt)) e0
  let e2 := edges.foldl (fun acc e => pickEarlier acc (ball.edge_collision e dt)) e1
  (bodies.enum).foldl (fun acc ib => pickEarlier acc (ball.ball_collision ib.2 ib.1 dt)) e2

/-- One body's turn in the mutation pass of a sub-step
(src/pool.js:363-385): skip if already processed, otherwise advance and, for
the winning body, override with the event outcome, including the paired body
of a ball-ball event.  `s` is the (bodies, processed-flags) state. -/
def applyOne (preds : List Event) (earliest : ℝ) (s : List Body × List Bool)
    (i : ℕ) : List Body × List Bool :=
  if s.2.getD i true then s
  else
    let ev := preds.getD i default
    if ev.dt > earliest + 1 / 100000 then
      (s.1.set i ((s.1.getD i default).advance earliest false), s.2.set i true)
    else
      let b2 := { (s.1.getD i default).advance earliest false with
        center := ev.position, linear_velocity := ev.velocity }
      let bs1 := s.1.set i b2
      let done1 := s.2.set i true
      match ev.other with
      | none => (bs1, done1)
      | some oe =>
        let ob2 := { (bs1.getD oe.idx default).advance earliest false with
          center := oe.position, linear_velocity := oe.velocity }
        (bs1.set oe.idx ob2, done1.set oe.idx true)

/-- The mutation pass over all bodies of one sub-step (the second `forEach`
of src/pool.js:363-385), with the JavaScript `Map` keyed by object identity
modelled as index-keyed processed flags. -/
def applyEvents (preds : List Event) (earliest : ℝ) (bodies : List Body) :
    List Body :=
  ((List.range bodies.length).foldl (applyOne preds earliest)
    (bodies, List.replicate bodies.length false)).1

/-- One iteration of the `while` loop of `Pool_Scene.update_state`
(src/pool.js:353-386): snapshot on the first sub-step (`this.dt === dt`),
predict every body's earliest collision, take the global minimum starting
from the sentinel `dt * 2`, and apply the events.  Returns the new body list
and the consumed `earliest`.  The source interleaves `set_previous` with the
predictions in a single `forEach`; since `set_previous` writes only the
`previous` field, which no prediction reads, hoisting the snapshots first is
extensionally identical. -/
def substep (walls edges : List (List Vec3)) (fixedDt : ℝ) (bodies : List Body)
    (r : ℝ) : List Body × ℝ :=
  let snapped := if fixedDt = r then bodies.map Body.set_previous else bodies
  let preds := snapped.map (fun b =>
    get_earliest_collision_info walls edges snapped b r)
  let earliest := preds.foldl (fun m p => min m p.dt) (r * 2)
  (applyEvents preds earliest snapped, earliest)

/-- The fuel-indexed embedding of the `while (dt >= 1E-5)` loop of
`Pool_Scene.update_state` (src/pool.js:353-387).  Returns the final body
list, the remaining horizon, and the sum of the consumed `earliest` values.
Fuel only truncates the iteration; every theorem about the loop either holds
for all fuel values or exhibits enough fuel for the loop to exit through its
own guard. -/
def update_state_loop (walls edges : List (List Vec3)) (fixedDt : ℝ) :
    ℕ → List Body → ℝ → List Body × ℝ × ℝ
  | 0, bs, r => (bs, r, 0)
  | fuel + 1, bs, r =>
    if 1 / 100000 ≤ r then
      let p := substep walls edges fixedDt bs r
      let rest := update_state_loop walls edges fixedDt fuel p.1 (r - p.2)
      (rest.1, rest.2.1, p.2 + rest.2.2)
    else (bs, r, 0)

/-- The whole macro step `Pool_Scene.update_state` (src/pool.js:348-400):
the sub-stepping loop followed by the pocket filter pass. -/
def update_state (walls edges : List (List Vec3)) (pockets : List Vec3)
    (radius height margin fixedDt : ℝ) (fuel : ℕ) (bodies : List Body)
    (dt : ℝ) : List Body × ℝ × ℝ :=
  let l := update_state_loop walls edges fixedDt fuel bodies dt
  (pocket_phase pockets radius height margin l.1, l.2)

end

noncomputable section

lemma update_state_loop_zero (walls edges : List (List Vec3)) (fixedDt : ℝ)
    (bs : List Body) (r : ℝ) :
    update_state_loop walls edges fixedDt 0 bs r = (bs, r, 0) := rfl

lemma update_state_loop_succ (walls edges : List (List Vec3)) (fixedDt : ℝ)
    (fuel : ℕ) (bs : List Body) (r : ℝ) :
    update_state_loop walls edges fixedDt (fuel + 1) bs r =
      if 1 / 100000 ≤ r then
        ((update_state_loop walls edges fixedDt fuel
            (substep walls edges fixedDt bs r).1
            (r - (substep walls edges fixedDt bs r).2)).1,
         (update_state_loop walls edges fixedDt fuel
            (substep walls edges fixedDt bs r).1
            (r - (substep walls edges fixedDt bs r).2)).2.1,
         (substep walls edges fixedDt bs r).2 +
           (update_state_loop walls edges fixedDt fuel
              (substep walls edges fixedDt bs r).1
              (r - (substep walls edges fixedDt bs r).2)).2.2)
      else (bs, r, 0) := rfl

/-- The consumed elapsed time always telescopes: it equals the initial
horizon minus the remaining horizon. -/
lemma update_state_loop_consumed (walls edges : List (List Vec3)) (fixedDt : ℝ) :
    ∀ (fuel : ℕ) (bs : List Body) (r : ℝ),
      (update_state_loop walls edges fixedDt fuel bs r).2.2 =
        r - (update_state_loop walls edges fixedDt fuel bs r).2.1 := by
  intro fuel
  induction fuel with
  | zero =>
    intro bs r
    rw [update_state_loop_zero]
    ring
  | succ n ih =>
    intro bs r
    rw [update_state_loop_succ]
    split_ifs with h
    · have := ih (substep walls edges fixedDt bs r).1
        (r - (substep walls edges fixedDt bs r).2)
      dsimp only []
      linarith
    · dsimp only []
      ring

/-- Peeling one iteration off the back of the loop. -/
lemma update_state_loop_succ_end (walls edges : List (List Vec3)) (fixedDt : ℝ) :
    ∀ (k : ℕ) (bs : List Body) (r : ℝ),
      update_state_loop walls edges fixedDt (k + 1) bs r =
        (if 1 / 100000 ≤ (update_state_loop walls edges fixedDt k bs r).2.1 then
          ((substep walls edges fixedDt
              (update_state_loop walls edges fixedDt k bs r).1
              ((update_state_loop walls edges fixedDt k bs r).2.1)).1,
           (update_state_loop walls edges fixedDt k bs r).2.1 -
             (substep walls edges fixedDt
               (update_state_loop walls edges fixedDt k bs r).1
               ((update_state_loop walls edges fixedDt k bs r).2.1)).2,
           (update_state_loop walls edges fixedDt k bs r).2.2 +
             (substep walls edges fixedDt
               (update_state_loop walls edges fixedDt k bs r).1
               ((update_state_loop walls edges fixedDt k bs r).2.1)).2)
        else update_state_loop walls edges fixedDt k bs r) := by
  intro k
  induction k with
  | zero =>
    intro bs r
    simp only [update_state_loop_succ, update_state_loop_zero]
    split_ifs with h
    · refine Prod.ext rfl (Prod.ext rfl ?_)
      dsimp only []
      ring
    · rfl
  | succ n ih =>
    intro bs r
    by_cases h : (1 : ℝ) / 100000 ≤ r
    · rw [update_state_loop_succ walls edges fixedDt (n + 1) bs r, if_pos h,
        ih ((substep walls edges fixedDt bs r).1) (r - (substep walls edges fixedDt bs r).2)]
      rw [update_state_loop_succ walls edges fixedDt n bs r, if_pos h]
      dsimp only []
      split_ifs with h2
      · refine Prod.ext rfl (Prod.ext rfl ?_)
        dsimp only []
        ring
      · rfl
    · have hL : update_state_loop walls edges fixedDt (n + 1) bs r = (bs, r, 0) := by
        rw [update_state_loop_succ, if_neg h]
      rw [update_state_loop_succ walls edges fixedDt (n + 1) bs r, if_neg h, hL]
      dsimp only []
      rw [if_neg h]

/-- Once the remaining horizon has fallen below the numeric floor, the loop
result is stable under additional fuel. -/
lemma update_state_loop_stable (walls edges : List (List Vec3)) (fixedDt : ℝ)
    (bs : List Body) (r : ℝ) (k : ℕ)
    (h : (update_state_loop walls edges fixedDt k bs r).2.1 < 1 / 100000) :
    ∀ m, k ≤ m →
      update_state_loop walls edges fixedDt m bs r =
        update_state_loop walls edges fixedDt k bs r := by
  intro m hm
  induction m, hm using Nat.le_induction with
  | base => rfl
  | succ n hn ih =>
    rw [update_state_loop_succ_end, ih, if_neg (not_le.mpr h)]

end

noncomputable section

/-- C2 (amended): provided every executed sub-step's selected earliest event
time lies between a fixed `δ > 0` and the remaining horizon, the sub-stepping
loop of `update_state` terminates within `⌈dt0/δ⌉ + 1` sub-steps — the
remaining horizon drops below the `1E-5` numeric floor and the result is
stable under extra fuel — and the consumed elapsed times sum to
`dt0 - remaining`, which lies within the numeric floor tolerance of the
requested `dt0`: `dt0 - 1E-5 < consumed ≤ dt0`.  (The frozen claim asserts
this for every macro step unconditionally; the counterexample shows a macro
step on an empty body list consumes `2·dt0`.) -/
theorem C2_update_state_loop_terminates_and_consumes
    (walls edges : List (List Vec3)) (fixedDt : ℝ) (bodies : List Body)
    (dt0 d : ℝ) (hdt0 : 0 ≤ dt0) (hd : 0 < d)
    (H : ∀ k : ℕ,
      1 / 100000 ≤ (update_state_loop walls edges fixedDt k bodies dt0).2.1 →
      d ≤ (substep walls edges fixedDt
            (update_state_loop walls edges fixedDt k bodies dt0).1
            ((update_state_loop walls edges fixedDt k bodies dt0).2.1)).2 ∧
      (substep walls edges fixedDt
          (update_state_loop walls edges fixedDt k bodies dt0).1
          ((update_state_loop walls edges fixedDt k bodies dt0).2.1)).2 ≤
        (update_state_loop walls edges fixedDt k bodies dt0).2.1) :
    (update_state_loop walls edges fixedDt (Nat.ceil (dt0 / d) + 1)
        bodies dt0).2.1 < 1 / 100000 ∧
    0 ≤ (update_state_loop walls edges fixedDt (Nat.ceil (dt0 / d) + 1)
        bodies dt0).2.1 ∧
    (update_state_loop walls edges fixedDt (Nat.ceil (dt0 / d) + 1)
        bodies dt0).2.2 =
      dt0 - (update_state_loop walls edges fixedDt (Nat.ceil (dt0 / d) + 1)
        bodies dt0).2.1 ∧
    dt0 - 1 / 100000 <
      (update_state_loop walls edges fixedDt (Nat.ceil (dt0 / d) + 1)
        bodies dt0).2.2 ∧
    (update_state_loop walls edges fixedDt (Nat.ceil (dt0 / d) + 1)
        bodies dt0).2.2 ≤ dt0 ∧
    ∀ m, Nat.ceil (dt0 / d) + 1 ≤ m →
      update_state_loop walls edges fixedDt m bodies dt0 =
        update_state_loop walls edges fixedDt (Nat.ceil (dt0 / d) + 1)
          bodies dt0 := by
  have hr_nonneg : ∀ k : ℕ,
      0 ≤ (update_state_loop walls edges fixedDt k bodies dt0).2.1 := by
    intro k
    induction k with
    | zero =>
      rw [update_state_loop_zero]
      exact hdt0
    | succ n ih =>
      rw [update_state_loop_succ_end]
      split_ifs with h
      · dsimp only []
        have := (H n h).2
        linarith
      · exact ih
  have hdec : ∀ k : ℕ,
      (update_state_loop walls edges fixedDt k bodies dt0).2.1 ≤
        dt0 - k * d ∨
      (update_state_loop walls edges fixedDt k bodies dt0).2.1 < 1 / 100000 := by
    intro k
    induction k with
    | zero =>
      left
      rw [update_state_loop_zero]
      simp
    | succ n ih =>
      rcases ih with ih | ih
      · by_cases h : (1 : ℝ) / 100000 ≤
            (update_state_loop walls edges fixedDt n bodies dt0).2.1
        · left
          rw [update_state_loop_succ_end, if_pos h]
          dsimp only []
          have := (H n h).1
          push_cast
          linarith
        · right
          rw [update_state_loop_succ_end, if_neg h]
          exact not_le.mp h
      · right
        rw [update_state_loop_stable walls edges fixedDt bodies dt0 n ih (n + 1)
          (Nat.le_succ n)]
        exact ih
  have hK : (update_state_loop walls edges fixedDt (Nat.ceil (dt0 / d) + 1)
      bodies dt0).2.1 < 1 / 100000 := by
    rcases hdec (Nat.ceil (dt0 / d) + 1) with h | h
    · have hceil : dt0 ≤ (Nat.ceil (dt0 / d) : ℝ) * d := by
        have h1 : dt0 / d ≤ (Nat.ceil (dt0 / d) : ℝ) := Nat.le_ceil _
        have h2 : dt0 / d * d ≤ (Nat.ceil (dt0 / d) : ℝ) * d :=
          mul_le_mul_of_nonneg_right h1 hd.le
        rwa [div_mul_cancel₀ dt0 hd.ne'] at h2
      have hcast : ((Nat.ceil (dt0 / d) + 1 : ℕ) : ℝ) =
          (Nat.ceil (dt0 / d) : ℝ) + 1 := by push_cast; ring
      rw [hcast] at h
      nlinarith
    · exact h
  have hcons := update_state_loop_consumed walls edges fixedDt
    (Nat.ceil (dt0 / d) + 1) bodies dt0
  refine ⟨hK, hr_nonneg _, hcons, ?_, ?_, ?_⟩
  · rw [hcons]
    linarith
  · rw [hcons]
    linarith [hr_nonneg (Nat.ceil (dt0 / d) + 1)]
  · exact update_state_loop_stable walls edges fixedDt bodies dt0 _ hK

/-- C2 counterexample: a macro step of the real table with no live bodies.
The prediction pass never runs, `earliest` keeps its sentinel value `2·dt`,
the loop subtracts it once and exits with the remaining horizon negative:
the consumed elapsed time is `1/10 = 2·dt`, not `dt = 1/20` within the
`1E-5` tolerance.  (The loop does terminate here; the sum half of the claim
is what fails.) -/
theorem C2_counterexample_empty_world :
    (update_state_loop poolWalls poolEdges (1 / 20) 2 [] (1 / 20)).2.2 = 1 / 10 ∧
    ¬ |(update_state_loop poolWalls poolEdges (1 / 20) 2 [] (1 / 20)).2.2 -
        1 / 20| ≤ 1 / 100000 := by
  have hsub : substep poolWalls poolEdges (1 / 20) [] (1 / 20) = ([], 1 / 10) := by
    rw [substep]
    simp only [List.map_nil, ite_self, List.foldl_nil]
    rw [applyEvents]
    norm_num
  have h2 : (2 : ℕ) = 1 + 1 := rfl
  rw [h2, update_state_loop_succ, if_pos (by norm_num : (1 : ℝ) / 100000 ≤ 1 / 20), hsub]
  have hneg : update_state_loop poolWalls poolEdges (1 / 20) 1 []
      ((1 : ℝ) / 20 - 1 / 10) = ([], 1 / 20 - 1 / 10, 0) := by
    rw [update_state_loop_succ, if_neg (by norm_num)]
  rw [hneg]
  norm_num [abs_le]

/-- The stationary ball used by the stepper witnesses: zero velocity, its
`previous` snapshot already equal to its current state. -/
def ballStat : Body :=
  { center := 0
    linear_velocity := 0
    rolling_friction := 0
    size := ⟨1, 1, 1⟩
    angular_velocity := 0
    rotation := 0
    previous := ⟨0, 0, 0⟩ }

lemma ballStat_set_previous : ballStat.set_previous = ballStat := rfl

lemma ballStat_nce : ballStat.noCollisionEvent (1 / 20) = ⟨1 / 20, 0, 0, none, none⟩ := by
  rw [Body.noCollisionEvent, compute_state_at_static ballStat _ rfl]
  simp [ballStat]

lemma pred_stationary :
    get_earliest_collision_info [] [] [ballStat] ballStat (1 / 20) =
      ⟨1 / 20, 0, 0, none, none⟩ := by
  rw [get_earliest_collision_info]
  simp only [List.foldl_nil, List.enum, List.enumFrom, List.foldl_cons]
  rw [ball_collision_self_eq, ballStat_nce, pickEarlier]
  rw [if_pos (by norm_num)]

lemma applyOne_stationary :
    applyOne [⟨1 / 20, 0, 0, none, none⟩] (1 / 20) ([ballStat], [false]) 0 =
      ([ballStat], [true]) := by
  unfold applyOne
  rw [if_neg (by simp)]
  simp only [List.getD_cons_zero]
  rw [if_neg (by norm_num)]
  have hb : ({ ballStat.advance (1 / 20) false with
      center := (⟨1 / 20, 0, 0, none, none⟩ : Event).position
      linear_velocity := (⟨1 / 20, 0, 0, none, none⟩ : Event).velocity } : Body) =
      ballStat := by
    rw [Body.advance]
    simp only [Bool.false_eq_true, if_false]
    ext <;> simp [ballStat]
  rw [hb]
  rfl

lemma substep_stationary :
    substep [] [] (1 / 20) [ballStat] (1 / 20) = ([ballStat], 1 / 20) := by
  rw [substep]
  rw [if_pos rfl]
  simp only [List.map_cons, List.map_nil, ballStat_set_previous]
  rw [pred_stationary]
  simp only [List.foldl_cons, List.foldl_nil]
  have hmin : min ((1 : ℝ) / 20 * 2)
      (Event.dt ⟨1 / 20, 0, 0, none, none⟩) = 1 / 20 := by
    norm_num
  rw [hmin]
  refine Prod.ext ?_ rfl
  rw [applyEvents]
  have hrange : List.range ([ballStat] : List Body).length = [0] := by
    norm_num [List.range_succ]
  have hrep : List.replicate ([ballStat] : List Body).length false = [false] := rfl
  rw [hrange, hrep]
  simp only [List.foldl_cons, List.foldl_nil]
  rw [applyOne_stationary]

lemma loop_stationary_one :
    update_state_loop [] [] (1 / 20) 1 [ballStat] (1 / 20) =
      ([ballStat], 0, 1 / 20) := by
  have h1 : (1 : ℕ) = 0 + 1 := rfl
  rw [h1, update_state_loop_succ, if_pos (by norm_num : (1 : ℝ) / 100000 ≤ 1 / 20),
    substep_stationary]
  rw [update_state_loop_zero]
  norm_num

/-- Witness for C2: a world with a single stationary ball and no geometry.
Every sub-step's earliest event time equals the remaining horizon
(`d = dt0 = 1/20`), the loop terminates after one sub-step, and the
consumed elapsed time is exactly the requested `1/20`. -/
theorem C2_witness :
    (0 : ℝ) ≤ 1 / 20 ∧ (0 : ℝ) < 1 / 20 ∧
    ((update_state_loop [] [] (1 / 20) (Nat.ceil ((1 / 20 : ℝ) / (1 / 20)) + 1)
        [ballStat] (1 / 20)).2.1 < 1 / 100000 ∧
      0 ≤ (update_state_loop [] [] (1 / 20) (Nat.ceil ((1 / 20 : ℝ) / (1 / 20)) + 1)
        [ballStat] (1 / 20)).2.1 ∧
      (update_state_loop [] [] (1 / 20) (Nat.ceil ((1 / 20 : ℝ) / (1 / 20)) + 1)
        [ballStat] (1 / 20)).2.2 =
        1 / 20 - (update_state_loop [] [] (1 / 20)
          (Nat.ceil ((1 / 20 : ℝ) / (1 / 20)) + 1) [ballStat] (1 / 20)).2.1 ∧
      1 / 20 - 1 / 100000 <
        (update_state_loop [] [] (1 / 20) (Nat.ceil ((1 / 20 : ℝ) / (1 / 20)) + 1)
          [ballStat] (1 / 20)).2.2 ∧
      (update_state_loop [] [] (1 / 20) (Nat.ceil ((1 / 20 : ℝ) / (1 / 20)) + 1)
        [ballStat] (1 / 20)).2.2 ≤ 1 / 20 ∧
      ∀ m, Nat.ceil ((1 / 20 : ℝ) / (1 / 20)) + 1 ≤ m →
        update_state_loop [] [] (1 / 20) m [ballStat] (1 / 20) =
          update_state_loop [] [] (1 / 20)
            (Nat.ceil ((1 / 20 : ℝ) / (1 / 20)) + 1) [ballStat] (1 / 20)) := by
  refine ⟨by norm_num, by norm_num, ?_⟩
  apply C2_update_state_loop_terminates_and_consumes [] [] (1 / 20) [ballStat]
    (1 / 20) (1 / 20) (by norm_num) (by norm_num)
  intro k hk
  match k with
  | 0 =>
    rw [update_state_loop_zero]
    rw [update_state_loop_zero] at hk
    dsimp only [] at hk ⊢
    rw [substep_stationary]
    norm_num
  | (j + 1) =>
    have hst := update_state_loop_stable [] [] (1 / 20) [ballStat] (1 / 20) 1
      (by rw [loop_stationary_one]; norm_num) (j + 1) (by omega)
    rw [hst, loop_stationary_one] at hk
    norm_num at hk

end

noncomputable section

lemma ball_collision_time_iter_nonneg (a b : BallState) (dt t : ℝ)
    (h : Body.ball_collision_time_iter a b dt = some t) : 0 ≤ t := by
  rw [Body.ball_collision_time_iter] at h
  by_cases h1 : ballQuadDelta a b ≤ 0
  · rw [if_pos h1] at h
    exact absurd h (by simp)
  rw [if_neg h1] at h
  by_cases h2 : ballRootOne a b < 0 ∨ ballRootTwo a b < 0 ∨ ballRootOne a b > dt
  · rw [if_pos h2] at h
    exact absurd h (by simp)
  rw [if_neg h2] at h
  push_neg at h2
  injection h with hh
  rw [← hh]
  exact h2.1

lemma boundary_collision_dt_nonneg (b : Body) (w : List Vec3) (dt : ℝ)
    (h : 0 ≤ dt) : 0 ≤ (b.boundary_collision w dt).dt := by
  rw [Body.boundary_collision]
  split_ifs
  · exact h
  · exact h
  · exact h
  · dsimp only []
    apply mul_nonneg _ (by norm_num)
    exact div_nonneg (Vec3.norm_nonneg _)
      (add_nonneg (Vec3.norm_nonneg _) (Real.sqrt_nonneg _))

lemma edge_collision_dt_nonneg (b : Body) (e : List Vec3) (dt : ℝ)
    (h : 0 ≤ dt) : 0 ≤ (b.edge_collision e dt).dt := by
  rw [Body.edge_collision]
  dsimp only []
  split_ifs
  · exact h
  · exact h
  · exact boundary_collision_dt_nonneg b _ dt h

lemma ball_collision_dt_nonneg (b other : Body) (idx : ℕ) (dt : ℝ)
    (h : 0 ≤ dt) : 0 ≤ (b.ball_collision other idx dt).dt := by
  rcases hiter : Body.ball_collision_time_iter
      ⟨b.center, b.linear_velocity, b.radius⟩
      ⟨other.center, other.linear_velocity, other.radius⟩ dt with _ | t0
  · rw [Body.ball_collision, hiter]
    exact h
  · rw [Body.ball_collision, hiter]
    dsimp only []
    split_ifs
    · exact h
    · dsimp only []
      have := ball_collision_time_iter_nonneg _ _ _ _ hiter
      linarith

lemma pickEarlier_dt_nonneg (acc re : Event) (h1 : 0 ≤ acc.dt)
    (h2 : 0 ≤ re.dt) : 0 ≤ (pickEarlier acc re).dt := by
  rw [pickEarlier]
  split_ifs
  · exact h2
  · exact h1

lemma foldl_pickEarlier_nonneg {α : Type} (f : α → Event) (l : List α) :
    ∀ (init : Event), 0 ≤ init.dt → (∀ a ∈ l, 0 ≤ (f a).dt) →
      0 ≤ (l.foldl (fun acc x => pickEarlier acc (f x)) init).dt := by
  induction l with
  | nil =>
    intro init h _
    exact h
  | cons a rest ih =>
    intro init h hf
    simp only [List.foldl_cons]
    exact ih _ (pickEarlier_dt_nonneg _ _ h (hf a (List.mem_cons_self a rest)))
      (fun x hx => hf x (List.mem_cons_of_mem _ hx))

lemma get_earliest_dt_nonneg (walls edges : List (List Vec3))
    (bodies : List Body) (ball : Body) (dt : ℝ) (h : 0 ≤ dt) :
    0 ≤ (get_earliest_collision_info walls edges bodies ball dt).dt := by
  rw [get_earliest_collision_info]
  apply foldl_pickEarlier_nonneg (fun ib : ℕ × Body => ball.ball_collision ib.2 ib.1 dt)
  · apply foldl_pickEarlier_nonneg (fun e => ball.edge_collision e dt)
    · apply foldl_pickEarlier_nonneg (fun w => ball.boundary_collision w dt)
      · dsimp only []
        linarith
      · intro w _
        exact boundary_collision_dt_nonneg ball w dt h
    · intro e _
      exact edge_collision_dt_nonneg ball e dt h
  · intro ib _
    exact ball_collision_dt_nonneg ball ib.2 ib.1 dt h

lemma foldl_min_dt_nonneg (preds : List Event) :
    ∀ (init : ℝ), 0 ≤ init → (∀ p ∈ preds, 0 ≤ p.dt) →
      0 ≤ preds.foldl (fun m p => min m p.dt) init := by
  induction preds with
  | nil =>
    intro init h _
    exact h
  | cons p rest ih =>
    intro init h hp
    simp only [List.foldl_cons]
    exact ih _ (le_min h (hp p (List.mem_cons_self p rest)))
      (fun q hq => hp q (List.mem_cons_of_mem _ hq))

lemma substep_earliest_nonneg (walls edges : List (List Vec3)) (fixedDt : ℝ)
    (bodies : List Body) (r : ℝ) (h : 0 ≤ r) :
    0 ≤ (substep walls edges fixedDt bodies r).2 := by
  rw [substep]
  dsimp only []
  apply foldl_min_dt_nonneg
  · linarith
  · intro p hp
    rw [List.mem_map] at hp
    obtain ⟨b, _, rfl⟩ := hp
    exact get_earliest_dt_nonneg _ _ _ _ _ h

lemma set_get_self {α : Type} (l : List α) (i : ℕ) (h : i < l.length) :
    l.set i (l.get ⟨i, h⟩) = l := by
  apply List.ext_get?
  intro n
  rw [List.get?_set]
  split_ifs with he
  · subst he
    rw [List.get?_eq_get h]
    rfl
  · rfl

lemma map_previous_set (l : List Body) (i : ℕ) (b : Body)
    (hb : b.previous = (l.getD i default).previous) :
    (l.set i b).map Body.previous = l.map Body.previous := by
  rw [List.map_set]
  by_cases h : i < l.length
  · have hget : l.getD i default = l.get ⟨i, h⟩ := by
      rw [List.getD_eq_get?, List.get?_eq_get h]
      rfl
    have hval : b.previous = (l.map Body.previous).get ⟨i, by simpa using h⟩ := by
      rw [hb, hget, List.get_map]
    rw [hval]
    exact set_get_self _ _ _
  · exact List.set_eq_of_length_le (by simpa using not_lt.mp h)

lemma advance_previous (b : Body) (t : ℝ) :
    (b.advance t false).previous = b.previous := rfl

lemma applyOne_previous (preds : List Event) (e : ℝ)
    (s : List Body × List Bool) (i : ℕ) :
    (applyOne preds e s i).1.map Body.previous = s.1.map Body.previous := by
  unfold applyOne
  dsimp only []
  split_ifs with h1 h2
  · rfl
  · exact map_previous_set _ _ _ rfl
  · cases hoth : (preds.getD i default).other with
    | none =>
      dsimp only []
      exact map_previous_set _ _ _ rfl
    | some oe =>
      dsimp only []
      exact (map_previous_set _ _ _ (by rfl)).trans (map_previous_set _ _ _ (by rfl))

lemma applyOne_length (preds : List Event) (e : ℝ)
    (s : List Body × List Bool) (i : ℕ) :
    (applyOne preds e s i).1.length = s.1.length := by
  unfold applyOne
  dsimp only []
  split_ifs with h1 h2
  · rfl
  · simp
  · cases hoth : (preds.getD i default).other with
    | none =>
      dsimp only []
      simp
    | some oe =>
      dsimp only []
      simp

lemma applyEvents_previous (preds : List Event) (e : ℝ) (bodies : List Body) :
    (applyEvents preds e bodies).map Body.previous = bodies.map Body.previous := by
  rw [applyEvents]
  have key : ∀ (l : List ℕ) (s : List Body × List Bool),
      ((l.foldl (applyOne preds e) s).1).map Body.previous = s.1.map Body.previous := by
    intro l
    induction l with
    | nil => intro s; rfl
    | cons a rest ih =>
      intro s
      simp only [List.foldl_cons]
      rw [ih, applyOne_previous]
  exact key _ _

lemma applyEvents_length (preds : List Event) (e : ℝ) (bodies : List Body) :
    (applyEvents preds e bodies).length = bodies.length := by
  rw [applyEvents]
  have key : ∀ (l : List ℕ) (s : List Body × List Bool),
      ((l.foldl (applyOne preds e) s).1).length = s.1.length := by
    intro l
    induction l with
    | nil => intro s; rfl
    | cons a rest ih =>
      intro s
      simp only [List.foldl_cons]
      rw [ih, applyOne_length]
  exact key _ _

lemma substep_previous_of_ne (walls edges : List (List Vec3)) (fixedDt : ℝ)
    (bodies : List Body) (r : ℝ) (h : ¬ fixedDt = r) :
    ((substep walls edges fixedDt bodies r).1).map Body.previous =
      bodies.map Body.previous := by
  rw [substep]
  dsimp only []
  rw [if_neg h]
  exact applyEvents_previous _ _ _

lemma substep_previous_of_eq (walls edges : List (List Vec3)) (fixedDt : ℝ)
    (bodies : List Body) (r : ℝ) (h : fixedDt = r) :
    ((substep walls edges fixedDt bodies r).1).map Body.previous =
      bodies.map (fun b => (⟨b.center, b.rotation, b.linear_velocity⟩ : Snapshot)) := by
  rw [substep]
  dsimp only []
  rw [if_pos h, applyEvents_previous, List.map_map]
  rfl

/-- C9 (amended): for a macro step invoked with the fixed step size
(`fixedDt = dt0`), provided the globally earliest event time of the first
sub-step is strictly positive, the remaining horizon of every later sub-step
is strictly below `dt0`, so the snapshot condition `this.dt === dt` never
fires again: each body's `previous` snapshot is written exactly once, in the
first sub-step before any mutation, and after the macro step's loop it still
holds every body's `{center, rotation, linear_velocity}` from the start of
the macro step.  (The frozen claim asserts this unconditionally; the
counterexample shows a zero-time first event makes the loop re-snapshot an
intermediate state.) -/
theorem C9_previous_snapshot (walls edges : List (List Vec3))
    (bodies : List Body) (dt0 : ℝ) (h0 : 1 / 100000 ≤ dt0)
    (hfirst : 0 < (substep walls edges dt0 bodies dt0).2) :
    (∀ k : ℕ, 1 ≤ k →
      (update_state_loop walls edges dt0 k bodies dt0).2.1 < dt0) ∧
    (∀ fuel : ℕ, 1 ≤ fuel →
      ((update_state_loop walls edges dt0 fuel bodies dt0).1).map Body.previous =
        bodies.map (fun b => (⟨b.center, b.rotation, b.linear_velocity⟩ : Snapshot))) := by
  have hfloor : (0 : ℝ) < 1 / 100000 := by norm_num
  have hL1 : update_state_loop walls edges dt0 1 bodies dt0 =
      ((substep walls edges dt0 bodies dt0).1,
        dt0 - (substep walls edges dt0 bodies dt0).2,
        (substep walls edges dt0 bodies dt0).2 + 0) := by
    have h1 : (1 : ℕ) = 0 + 1 := rfl
    rw [h1, update_state_loop_succ, if_pos h0, update_state_loop_zero]
  have hr_lt : ∀ k : ℕ, 1 ≤ k →
      (update_state_loop walls edges dt0 k bodies dt0).2.1 < dt0 := by
    intro k hk
    induction k, hk using Nat.le_induction with
    | base =>
      rw [hL1]
      dsimp only []
      linarith
    | succ n hn ih =>
      rw [update_state_loop_succ_end]
      split_ifs with h
      · dsimp only []
        have he := substep_earliest_nonneg walls edges dt0
          (update_state_loop walls edges dt0 n bodies dt0).1
          ((update_state_loop walls edges dt0 n bodies dt0).2.1)
          (le_trans hfloor.le h)
        linarith
      · exact ih
  refine ⟨hr_lt, ?_⟩
  intro fuel hfuel
  induction fuel, hfuel using Nat.le_induction with
  | base =>
    rw [hL1]
    dsimp only []
    exact substep_previous_of_eq walls edges dt0 bodies dt0 rfl
  | succ n hn ih =>
    rw [update_state_loop_succ_end]
    split_ifs with h
    · dsimp only []
      rw [substep_previous_of_ne walls edges dt0 _ _ (ne_of_gt (hr_lt n hn))]
      exact ih
    · exact ih

/-- Witness world for C9: a single stationary ball and no geometry, whose
first sub-step's earliest event time is the full positive horizon. -/
theorem C9_witness :
    (1 : ℝ) / 100000 ≤ 1 / 20 ∧
    0 < (substep [] [] (1 / 20) [ballStat] (1 / 20)).2 ∧
    ((update_state_loop [] [] (1 / 20) 1 [ballStat] (1 / 20)).1).map Body.previous =
      [ballStat].map (fun b => (⟨b.center, b.rotation, b.linear_velocity⟩ : Snapshot)) := by
  refine ⟨by norm_num, ?_, ?_⟩
  · rw [substep_stationary]
    norm_num
  · exact (C9_previous_snapshot [] [] [ballStat] (1 / 20) (by norm_num)
      (by rw [substep_stationary]; norm_num)).2 1 le_rfl

/-- The ball of C9's counterexample: its bounding sphere already touches the
inflated plane `x = 0` of `wallA` while it moves straight at the wall, so the
first sub-step's earliest event time is exactly `0`. -/
def ballC9 : Body :=
  { center := ⟨0, 1, 1⟩
    linear_velocity := ⟨1, 0, 0⟩
    rolling_friction := 0
    size := ⟨1, 1, 1⟩
    angular_velocity := 0
    rotation := 0
    previous := ⟨0, 0, 0⟩ }

/-- `ballC9` after the first sub-step's snapshot. -/
def ballC9s : Body := { ballC9 with previous := ⟨⟨0, 1, 1⟩, 0, ⟨1, 0, 0⟩⟩ }

/-- `ballC9s` after the zero-time wall bounce of the first sub-step: only the
velocity has flipped; the snapshot still holds the macro-step start state. -/
def ballC9b : Body :=
  { center := ⟨0, 1, 1⟩
    linear_velocity := ⟨-1, 0, 0⟩
    rolling_friction := 0
    size := ⟨1, 1, 1⟩
    angular_velocity := 0
    rotation := 0
    previous := ⟨⟨0, 1, 1⟩, 0, ⟨1, 0, 0⟩⟩ }

/-- `ballC9b` after the second sub-step's re-snapshot: because the first
sub-step consumed zero time, the remaining horizon still equals the fixed
step size and the loop overwrites `previous` with the post-bounce state. -/
def ballC9c : Body :=
  { ballC9b with previous := ⟨⟨0, 1, 1⟩, 0, ⟨-1, 0, 0⟩⟩ }

/-- The final body of C9's counterexample run. -/
def ballC9d : Body :=
  { center := ⟨-(1 / 20), 1, 1⟩
    linear_velocity := ⟨-1, 0, 0⟩
    rolling_friction := 0
    size := ⟨1, 1, 1⟩
    angular_velocity := 0
    rotation := 0
    previous := ⟨⟨0, 1, 1⟩, 0, ⟨-1, 0, 0⟩⟩ }

lemma ballC9_set_previous : ballC9.set_previous = ballC9s := rfl

lemma ballC9b_set_previous : ballC9b.set_previous = ballC9c := rfl

lemma ballC9s_wallNormal : ballC9s.wallNormal wallA = ⟨-1, 0, 0⟩ := by
  have hcross :
      ((wallA.getD 1 0 - wallA.getD 0 0).cross (wallA.getD 2 0 - wallA.getD 1 0)) =
        ⟨-4, 0, 0⟩ := by
    ext <;> norm_num [wallA]
  have hnorm : (⟨-4, 0, 0⟩ : Vec3).norm = 4 := by
    apply Vec3.norm_eq_of_sq _ 4 (by norm_num)
    simp
    norm_num
  rw [Body.wallNormal]
  simp only [hcross]
  rw [if_neg]
  · rw [Vec3.normalized, hnorm]
    ext <;> norm_num [Vec3.times]
  · rw [Vec3.normalized, hnorm]
    simp [ballC9s, ballC9, wallA, Vec3.times]

lemma ballC9s_norm_v : ballC9s.linear_velocity.norm = 1 := by
  apply Vec3.norm_eq_of_sq _ 1 (by norm_num)
  simp [ballC9s, ballC9]

lemma ballC9s_state :
    ballC9s.compute_state_at (1 / 20) = ⟨⟨1 / 20, 1, 1⟩, ⟨1, 0, 0⟩, none⟩ := by
  rw [compute_state_at_frictionless ballC9s (1 / 20) rfl
    (by rw [ballC9s_norm_v]; norm_num)]
  congr 1
  · ext <;> simp [ballC9s, ballC9, Vec3.times]

lemma ballC9s_radius : ballC9s.radius = 1 := by
  simp [Body.radius, ballC9s, ballC9]

lemma ballC9s_moved :
    ballC9s.movedPolygon wallA =
      [⟨0, 0, 0⟩, ⟨0, 0, 2⟩, ⟨0, 2, 2⟩, ⟨0, 2, 0⟩] := by
  rw [Body.movedPolygon, ballC9s_wallNormal, ballC9s_radius]
  simp [wallA, Vec3.ext_iff, Vec3.times]

lemma ballC9s_begin : ballC9s.beginHeight wallA = 0 := by
  rw [Body.beginHeight, ballC9s_moved, ballC9s_wallNormal]
  simp [ballC9s, ballC9]

lemma ballC9s_end : ballC9s.endHeight wallA (1 / 20) = 1 / 20 := by
  rw [Body.endHeight, ballC9s_moved, ballC9s_wallNormal, ballC9s_state]
  norm_num

lemma ballC9s_ip : ballC9s.intersectionPoint wallA (1 / 20) = ⟨0, 1, 1⟩ := by
  rw [Body.intersectionPoint, ballC9s_begin, ballC9s_end, ballC9s_state]
  ext <;> simp [ballC9s, ballC9, Vec3.times]

lemma ballC9s_nomiss : ¬ ballC9s.polygonMiss wallA (1 / 20) := by
  simp only [Body.polygonMiss, ballC9s_moved, ballC9s_ip, ballC9s_wallNormal]
  rintro ⟨i, hi, hle⟩
  rw [List.mem_range] at hi
  simp only [List.length_cons, List.length_nil] at hi
  interval_cases i <;>
    norm_num [List.getD_cons_zero, List.getD_cons_succ] at hle

lemma ballC9s_ip_dist :
    (ballC9s.intersectionPoint wallA (1 / 20) - ballC9s.center).norm = 0 := by
  rw [ballC9s_ip]
  apply Vec3.norm_eq_of_sq _ 0 (by norm_num)
  simp [ballC9s, ballC9]

lemma ballC9s_speed : ballC9s.intersectionSpeed wallA (1 / 20) = 1 := by
  rw [Body.intersectionSpeed, ballC9s_ip_dist]
  have h : (ballC9s.linear_velocity.dot ballC9s.linear_velocity -
      2 * ballC9s.rolling_friction * 0 : ℝ) = 1 := by
    simp [ballC9s, ballC9]
  rw [h, Real.sqrt_one]

lemma ballC9s_event :
    ballC9s.boundary_collision wallA (1 / 20) =
      ⟨0, ⟨0, 1, 1⟩, ⟨-1, 0, 0⟩, none, none⟩ := by
  have h1 : ¬ ballC9s.linear_velocity.dot (ballC9s.wallNormal wallA) > 0 := by
    rw [ballC9s_wallNormal]
    simp [ballC9s, ballC9]
  have h2 : ¬ ((ballC9s.compute_state_at (1 / 20)).position -
      (ballC9s.movedPolygon wallA).getD 0 0).dot (ballC9s.wallNormal wallA) > 0 := by
    rw [ballC9s_state, ballC9s_moved, ballC9s_wallNormal]
    norm_num
  rw [boundary_collision_confirmed ballC9s wallA (1 / 20) h1 h2 ballC9s_nomiss]
  have hvn : ballC9s.linear_velocity.normalized = ⟨1, 0, 0⟩ := by
    rw [Vec3.normalized, ballC9s_norm_v]
    ext <;> simp [ballC9s, ballC9, Vec3.times]
  ext1
  · rw [ballC9s_ip_dist, ballC9s_speed, ballC9s_norm_v]
    norm_num
  · rw [ballC9s_ip]
  · rw [ballC9s_speed, hvn, ballC9s_wallNormal]
    ext <;> norm_num [Vec3.times]
  · rfl
  · rfl

lemma ballC9s_nce :
    ballC9s.noCollisionEvent (1 / 20) =
      ⟨1 / 20, ⟨1 / 20, 1, 1⟩, ⟨1, 0, 0⟩, none, none⟩ := by
  rw [Body.noCollisionEvent, ballC9s_state]

lemma pred_C9_first :
    get_earliest_collision_info [wallA] [] [ballC9s] ballC9s (1 / 20) =
      ⟨0, ⟨0, 1, 1⟩, ⟨-1, 0, 0⟩, none, none⟩ := by
  rw [get_earliest_collision_info]
  simp only [List.foldl_cons, List.foldl_nil, List.enum, List.enumFrom]
  rw [ballC9s_event, ball_collision_self_eq, ballC9s_nce]
  have hw : pickEarlier ⟨1 / 20 * 2, 0, 0, none, none⟩
      ⟨0, ⟨0, 1, 1⟩, ⟨-1, 0, 0⟩, none, none⟩ =
      ⟨0, ⟨0, 1, 1⟩, ⟨-1, 0, 0⟩, none, none⟩ := by
    rw [pickEarlier, if_pos (by norm_num)]
  rw [hw, pickEarlier, if_neg (by norm_num)]

lemma applyOne_C9_first :
    applyOne [⟨0, ⟨0, 1, 1⟩, ⟨-1, 0, 0⟩, none, none⟩] 0 ([ballC9s], [false]) 0 =
      ([ballC9b], [true]) := by
  unfold applyOne
  rw [if_neg (by simp)]
  simp only [List.getD_cons_zero]
  rw [if_neg (by norm_num)]
  have hb : ({ ballC9s.advance 0 false with
      center := (⟨0, ⟨0, 1, 1⟩, ⟨-1, 0, 0⟩, none, none⟩ : Event).position
      linear_velocity := (⟨0, ⟨0, 1, 1⟩, ⟨-1, 0, 0⟩, none, none⟩ : Event).velocity } : Body) =
      ballC9b := by
    rw [Body.advance]
    simp only [Bool.false_eq_true, if_false]
    ext <;> simp [ballC9s, ballC9, ballC9b]
  rw [hb]
  rfl

lemma substep_C9_first :
    substep [wallA] [] (1 / 20) [ballC9] (1 / 20) = ([ballC9b], 0) := by
  rw [substep]
  rw [if_pos rfl]
  simp only [List.map_cons, List.map_nil, ballC9_set_previous]
  rw [pred_C9_first]
  simp only [List.foldl_cons, List.foldl_nil]
  have hmin : min ((1 : ℝ) / 20 * 2)
      (Event.dt ⟨0, ⟨0, 1, 1⟩, ⟨-1, 0, 0⟩, none, none⟩) = 0 := by
    norm_num
  rw [hmin]
  refine Prod.ext ?_ rfl
  rw [applyEvents]
  have hrange : List.range ([ballC9s] : List Body).length = [0] := by
    norm_num [List.range_succ]
  have hrep : List.replicate ([ballC9s] : List Body).length false = [false] := rfl
  rw [hrange, hrep]
  simp only [List.foldl_cons, List.foldl_nil]
  rw [applyOne_C9_first]

lemma ballC9c_nce :
    ballC9c.noCollisionEvent (1 / 20) =
      ⟨1 / 20, ⟨-(1 / 20), 1, 1⟩, ⟨-1, 0, 0⟩, none, none⟩ := by
  have hn : ballC9c.linear_velocity.norm = 1 := by
    apply Vec3.norm_eq_of_sq _ 1 (by norm_num)
    simp [ballC9c, ballC9b]
  rw [Body.noCollisionEvent,
    compute_state_at_frictionless ballC9c (1 / 20) rfl (by rw [hn]; norm_num)]
  ext1
  · rfl
  · ext <;> simp [ballC9c, ballC9b, Vec3.times] <;> norm_num
  · rfl
  · rfl
  · rfl

lemma ballC9c_wall_event :
    ballC9c.boundary_collision wallA (1 / 20) = ballC9c.noCollisionEvent (1 / 20) := by
  have hn : ballC9c.wallNormal wallA = ⟨-1, 0, 0⟩ := by
    have hcross :
        ((wallA.getD 1 0 - wallA.getD 0 0).cross (wallA.getD 2 0 - wallA.getD 1 0)) =
          ⟨-4, 0, 0⟩ := by
      ext <;> norm_num [wallA]
    have hnorm : (⟨-4, 0, 0⟩ : Vec3).norm = 4 := by
      apply Vec3.norm_eq_of_sq _ 4 (by norm_num)
      simp
      norm_num
    rw [Body.wallNormal]
    simp only [hcross]
    rw [if_neg]
    · rw [Vec3.normalized, hnorm]
      ext <;> norm_num [Vec3.times]
    · rw [Vec3.normalized, hnorm]
      simp [ballC9c, ballC9b, wallA, Vec3.times]
  have hpos : ballC9c.linear_velocity.dot (ballC9c.wallNormal wallA) > 0 := by
    rw [hn]
    simp [ballC9c, ballC9b]
  rw [Body.boundary_collision, if_pos hpos]

lemma pred_C9_second :
    get_earliest_collision_info [wallA] [] [ballC9c] ballC9c (1 / 20) =
      ⟨1 / 20, ⟨-(1 / 20), 1, 1⟩, ⟨-1, 0, 0⟩, none, none⟩ := by
  rw [get_earliest_collision_info]
  simp only [List.foldl_cons, List.foldl_nil, List.enum, List.enumFrom]
  rw [ballC9c_wall_event, ball_collision_self_eq, ballC9c_nce]
  have hw : pickEarlier ⟨1 / 20 * 2, 0, 0, none, none⟩
      ⟨1 / 20, ⟨-(1 / 20), 1, 1⟩, ⟨-1, 0, 0⟩, none, none⟩ =
      ⟨1 / 20, ⟨-(1 / 20), 1, 1⟩, ⟨-1, 0, 0⟩, none, none⟩ := by
    rw [pickEarlier, if_pos (by norm_num)]
  rw [hw, pickEarlier, if_neg (by norm_num)]

lemma applyOne_C9_second :
    applyOne [⟨1 / 20, ⟨-(1 / 20), 1, 1⟩, ⟨-1, 0, 0⟩, none, none⟩] (1 / 20)
      ([ballC9c], [false]) 0 = ([ballC9d], [true]) := by
  unfold applyOne
  rw [if_neg (by simp)]
  simp only [List.getD_cons_zero]
  rw [if_neg (by norm_num)]
  have hb : ({ ballC9c.advance (1 / 20) false with
      center := (⟨1 / 20, ⟨-(1 / 20), 1, 1⟩, ⟨-1, 0, 0⟩, none, none⟩ : Event).position
      linear_velocity :=
        (⟨1 / 20, ⟨-(1 / 20), 1, 1⟩, ⟨-1, 0, 0⟩, none, none⟩ : Event).velocity } : Body) =
      ballC9d := by
    rw [Body.advance]
    simp only [Bool.false_eq_true, if_false]
    ext <;> simp [ballC9c, ballC9b, ballC9d]
  rw [hb]
  rfl

lemma substep_C9_second :
    substep [wallA] [] (1 / 20) [ballC9b] (1 / 20) = ([ballC9d], 1 / 20) := by
  rw [substep]
  rw [if_pos rfl]
  simp only [List.map_cons, List.map_nil, ballC9b_set_previous]
  rw [pred_C9_second]
  simp only [List.foldl_cons, List.foldl_nil]
  have hmin : min ((1 : ℝ) / 20 * 2)
      (Event.dt ⟨1 / 20, ⟨-(1 / 20), 1, 1⟩, ⟨-1, 0, 0⟩, none, none⟩) = 1 / 20 := by
    norm_num
  rw [hmin]
  refine Prod.ext ?_ rfl
  rw [applyEvents]
  have hrange : List.range ([ballC9c] : List Body).length = [0] := by
    norm_num [List.range_succ]
  have hrep : List.replicate ([ballC9c] : List Body).length false = [false] := rfl
  rw [hrange, hrep]
  simp only [List.foldl_cons, List.foldl_nil]
  rw [applyOne_C9_second]

/-- C9 counterexample: a ball that starts a macro step already touching a
wall.  Its first sub-step's earliest event time is `0`, so the sub-step
consumes no horizon, the second sub-step again sees `dt === this.dt` and
re-snapshots, overwriting `previous` with the post-bounce state: after the
loop the snapshot holds velocity `(-1,0,0)`, not the macro-step start
velocity `(1,0,0)` — the snapshot is written twice and holds an intermediate
sub-step state, contradicting the claim. -/
theorem C9_counterexample_zero_time_event :
    (substep [wallA] [] (1 / 20) [ballC9] (1 / 20)).2 = 0 ∧
    (update_state_loop [wallA] [] (1 / 20) 2 [ballC9] (1 / 20)).2.1 < 1 / 100000 ∧
    ((update_state_loop [wallA] [] (1 / 20) 2 [ballC9] (1 / 20)).1).map Body.previous =
      [⟨⟨0, 1, 1⟩, 0, ⟨-1, 0, 0⟩⟩] ∧
    ((update_state_loop [wallA] [] (1 / 20) 2 [ballC9] (1 / 20)).1).map Body.previous ≠
      [ballC9].map (fun b => (⟨b.center, b.rotation, b.linear_velocity⟩ : Snapshot)) := by
  have h2 : (2 : ℕ) = 1 + 1 := rfl
  have hloop : update_state_loop [wallA] [] (1 / 20) 2 [ballC9] (1 / 20) =
      ([ballC9d], 0, 1 / 20) := by
    rw [h2, update_state_loop_succ,
      if_pos (by norm_num : (1 : ℝ) / 100000 ≤ 1 / 20), substep_C9_first]
    have h1 : (1 : ℕ) = 0 + 1 := rfl
    have hr : ((1 : ℝ) / 20 - 0) = 1 / 20 := by norm_num
    rw [hr, h1, update_state_loop_succ,
      if_pos (by norm_num : (1 : ℝ) / 100000 ≤ 1 / 20), substep_C9_second,
      update_state_loop_zero]
    norm_num
  refine ⟨by rw [substep_C9_first], ?_, ?_, ?_⟩
  · rw [hloop]
    norm_num
  · rw [hloop]
    rfl
  · rw [hloop]
    intro h
    have hx := congrArg (fun l => ((l.getD 0 ⟨0, 0, 0⟩).linear_velocity).x) h
    simp [ballC9d, ballC9] at hx
    norm_num at hx

lemma check_all_pockets_of_mem (pockets : List Vec3) (radius height margin : ℝ)
    (b : Body) (p : Vec3) (hp : p ∈ pockets)
    (hd : (b.center.x - p.x) ^ 2 + (b.center.z - p.z) ^ 2 < radius ^ 2) :
    (check_all_pockets pockets radius height margin b).captured ∧
    ((check_all_pockets pockets radius height margin b).removable ↔
      b.center.y < height - margin) := by
  induction pockets with
  | nil => cases hp
  | cons q rest ih =>
    by_cases hq : (b.pocket_update q radius height margin).captured
    · rw [check_all_pockets, if_pos hq]
      refine ⟨hq, ?_⟩
      rw [Body.pocket_update] at hq ⊢
      dsimp only [] at hq ⊢
      constructor
      · rintro ⟨-, h⟩
        exact h
      · intro h
        exact ⟨hq, h⟩
    · rw [check_all_pockets, if_neg hq]
      rcases List.mem_cons.mp hp with rfl | hp'
      · rw [Body.pocket_update] at hq
        dsimp only [] at hq
        exact absurd hd hq
      · exact ih hp'

/-- C4: a ball whose horizontal distance to some pocket centre is inside the
capture radius is reported `captured` by `check_all_pockets`; once its height
is sufficiently below the table height it is also `removable` and the pocket
filter at the end of the macro step drops it from the live body list; a ball
inside the capture radius but still at the table (rim) height is captured but
not removable, and stays in the live body list (exempt from the clamp). -/
theorem C4_pocket_capture (margin : ℝ) (hm : 0 < margin) (b : Body) (p : Vec3)
    (hp : p ∈ poolPockets)
    (hd : (b.center.x - p.x) ^ 2 + (b.center.z - p.z) ^ 2 < pocketRadius ^ 2) :
    (check_all_pockets poolPockets pocketRadius ballCenterHeight margin b).captured ∧
    (b.center.y < ballCenterHeight - margin →
      (check_all_pockets poolPockets pocketRadius ballCenterHeight margin b).removable ∧
      ∀ bodies : List Body,
        b ∉ pocket_phase poolPockets pocketRadius ballCenterHeight margin bodies) ∧
    (b.center.y = ballCenterHeight →
      ¬ (check_all_pockets poolPockets pocketRadius ballCenterHeight margin b).removable ∧
      ∀ bodies : List Body, b ∈ bodies →
        b ∈ pocket_phase poolPockets pocketRadius ballCenterHeight margin bodies) := by
  obtain ⟨hcap, hrem⟩ := check_all_pockets_of_mem poolPockets pocketRadius
    ballCenterHeight margin b p hp hd
  refine ⟨hcap, ?_, ?_⟩
  · intro hy
    refine ⟨hrem.mpr hy, ?_⟩
    intro bodies hmem
    rw [pocket_phase, List.mem_filterMap] at hmem
    obtain ⟨a, ha, hfa⟩ := hmem
    dsimp only [] at hfa
    split_ifs at hfa with h1 h2
    · obtain rfl := Option.some.inj hfa
      exact h1 (hrem.mpr hy)
    · have hab := Option.some.inj hfa
      have hy2 := congrArg (fun c => c.center.y) hab
      dsimp only [] at hy2
      rw [← hy2] at hy
      linarith
  · intro hy
    have hnr : ¬ (check_all_pockets poolPockets pocketRadius ballCenterHeight
        margin b).removable := by
      rw [hrem, hy]
      intro h
      linarith
    refine ⟨hnr, ?_⟩
    intro bodies hb
    rw [pocket_phase, List.mem_filterMap]
    refine ⟨b, hb, ?_⟩
    dsimp only []
    rw [if_neg hnr, if_pos hcap]

/-- The ball of C4's witness: directly over the pocket at `(18.3, -5, 0)`,
fallen to height `-5.2`. -/
def ballC4 : Body :=
  { center := ⟨18.3, -5.2, 0⟩
    linear_velocity := 0
    rolling_friction := 0
    size := ⟨1, 1, 1⟩
    angular_velocity := 0
    rotation := 0
    previous := ⟨0, 0, 0⟩ }

/-- Witness for C4 with margin `1/10`: the fallen ball is captured, removable,
and dropped by the pocket filter. -/
theorem C4_witness :
    (0 : ℝ) < 1 / 10 ∧
    (⟨18.3, ballCenterHeight, 0⟩ : Vec3) ∈ poolPockets ∧
    (ballC4.center.x - (⟨18.3, ballCenterHeight, 0⟩ : Vec3).x) ^ 2 +
      (ballC4.center.z - (⟨18.3, ballCenterHeight, 0⟩ : Vec3).z) ^ 2 <
        pocketRadius ^ 2 ∧
    (check_all_pockets poolPockets pocketRadius ballCenterHeight (1 / 10)
      ballC4).captured ∧
    (check_all_pockets poolPockets pocketRadius ballCenterHeight (1 / 10)
      ballC4).removable ∧
    ballC4 ∉ pocket_phase poolPockets pocketRadius ballCenterHeight (1 / 10)
      [ballC4] := by
  have hm : (0 : ℝ) < 1 / 10 := by norm_num
  have hp : (⟨18.3, ballCenterHeight, 0⟩ : Vec3) ∈ poolPockets :=
    List.mem_cons_of_mem _ (List.mem_cons_self _ _)
  have hd : (ballC4.center.x - (⟨18.3, ballCenterHeight, 0⟩ : Vec3).x) ^ 2 +
      (ballC4.center.z - (⟨18.3, ballCenterHeight, 0⟩ : Vec3).z) ^ 2 <
        pocketRadius ^ 2 := by
    norm_num [ballC4, pocketRadius]
  have hy : ballC4.center.y < ballCenterHeight - 1 / 10 := by
    norm_num [ballC4, ballCenterHeight]
  have H := C4_pocket_capture (1 / 10) hm ballC4 _ hp hd
  exact ⟨hm, hp, hd, H.1, (H.2.1 hy).1, (H.2.1 hy).2 [ballC4]⟩

end
